import Mathlib

/-!
# Query-template substitution of `slo/promql.go`

A shallow embedding of the five query generators of package `slo`
(`QueryTotal`, `QueryErrors`, `QueryErrorBudget`, `RequestRange`, `ErrorsRange`),
of the substitution engine `objectiveReplacer.replace` and of `groupingLabels`.

Conventions of the embedding:

* The PromQL parser and printer are an external library.  A generator's
  result is the expression tree it hands to `expr.String()`, or the literal
  empty string (`Output`).  Each fixed template text is represented by the
  tree the parser builds for it (`parse...` below).  The printer is
  `Node.text`, the returned string `Output.text`; the formatting of floats,
  durations and quoted values is left to the parameter `Formats`.
* `replace` mutates the tree in place and panics on a node kind it does not
  know; here it returns the rewritten tree, or `Except.error` with the panic
  message.
* A `float64` is its IEEE-754 binary64 bit pattern; a `time.Duration` is its
  number of nanoseconds.
* Go does not specify the order in which `range` walks a map; the order
  taken by one call of `groupingLabels` is the parameter `MapIter`.
-/

namespace Slo

/-! ## Values -/

/-- A `float64`, given by its IEEE-754 binary64 bit pattern. -/
structure Float64 where
  bits : Nat
deriving DecidableEq, Repr

namespace Float64

/-- The value `0` (positive zero). -/
def zero : Float64 := ⟨0⟩

/-- The value `1`. -/
def one : Float64 := ⟨0x3FF0000000000000⟩

/-- The value of the Go constant and of the template literal `0.696969`:
the binary64 number nearest to it. -/
def sentinel : Float64 := ⟨0x3FE64D91EEAA6D26⟩

/-- Exponent field all ones and a non-zero fraction. -/
def isNaN (x : Float64) : Bool :=
  decide ((x.bits / 2 ^ 52) % 2 ^ 11 = 2047) && decide (x.bits % 2 ^ 52 ≠ 0)

/-- Positive or negative zero. -/
def isZero (x : Float64) : Bool :=
  decide (x.bits % 2 ^ 63 = 0)

/-- Go's `==` on `float64`: a NaN equals nothing, the two zeros are equal,
and otherwise the bit patterns decide. -/
def eq (x y : Float64) : Bool :=
  !x.isNaN && !y.isNaN && (decide (x.bits = y.bits) || (x.isZero && y.isZero))

end Float64

/-- A `time.Duration` (and a `model.Duration`, which converts to it
unchanged): a number of nanoseconds. -/
abbrev Duration := Int

/-- One second, the range written `[1s]` in every template. -/
def second : Duration := 1000000000

/-- The `labels.MatchType` of a matcher: `=`, `!=`, `=~`, `!~`. -/
inductive MatchType where
  | MatchEqual
  | MatchNotEqual
  | MatchRegexp
  | MatchNotRegexp
deriving DecidableEq, Repr

/-- A `labels.Matcher`: operator, label name and value. -/
structure Matcher where
  Typ : MatchType
  Name : String
  Value : String
deriving DecidableEq, Repr

/-- The label `__name__` under which the parser records a selector's metric
name as a matcher. -/
def MetricName : String := "__name__"

/-- The operator tokens (`parser.ItemType`) of aggregations and of binary and
unary expressions. -/
inductive ItemType where
  | SUM | AVG | COUNT | MIN | MAX | GROUP | STDDEV | STDVAR
  | TOPK | BOTTOMK | COUNT_VALUES | QUANTILE
  | ADD | SUB | MUL | DIV | MOD | POW
  | LAND | LOR | LUNLESS
  | EQLC | NEQ | LTE | LSS | GTE | GTR
deriving DecidableEq, Repr

/-! ## Expression trees -/

/-- The nodes of a parsed PromQL expression (`parser.Node`).  Fields that
`replace` neither reads nor writes and that the templates leave at their zero
value (positions, offsets, vector matching) are left out. -/
inductive Node where
  | AggregateExpr (Op : ItemType) (Expr : Node) (Param : Option Node)
      (Grouping : List String) (Without : Bool)
  | Call (Func : String) (Args : List Node)
  | Expressions (es : List Node)
  | MatrixSelector (VectorSelector : Node) (Range : Duration)
  | VectorSelector (Name : String) (LabelMatchers : List Matcher)
  | BinaryExpr (Op : ItemType) (LHS : Node) (RHS : Node) (ReturnBool : Bool)
  | ParenExpr (Expr : Node)
  | NumberLiteral (Val : Float64)
  | StringLiteral (Val : String)
  | UnaryExpr (Op : ItemType) (Expr : Node)
  | SubqueryExpr (Expr : Node) (Range : Duration) (Step : Duration)
deriving Repr

/-- What a generator returns: the literal `""`, or `expr.String()` of a
tree. -/
inductive Output where
  | empty
  | query (expr : Node)
deriving Repr

/-- The returned string, for a printer `String` of expression trees. -/
def Output.render (print : Node → String) : Output → String
  | .empty => ""
  | .query expr => print expr

/-! ## The Objective -/

/-- Modelled from the spec: the type `Metric` (declared outside
`promql.go`), a name with its label matchers. -/
structure Metric where
  Name : String
  LabelMatchers : List Matcher
deriving DecidableEq, Repr

/-- Modelled from the spec: the type `RatioIndicator` (declared outside
`promql.go`). -/
structure RatioIndicator where
  Errors : Metric
  Total : Metric
  Grouping : List String
deriving DecidableEq, Repr

/-- Modelled from the spec: the type `LatencyIndicator` (declared outside
`promql.go`). -/
structure LatencyIndicator where
  Success : Metric
  Total : Metric
  Grouping : List String
deriving DecidableEq, Repr

/-- Modelled from the spec: the type `Indicator` (declared outside
`promql.go`); each variant is a pointer that may be nil. -/
structure Indicator where
  Ratio : Option RatioIndicator
  Latency : Option LatencyIndicator
deriving DecidableEq, Repr

/-- Modelled from the spec: the type `Objective` (declared outside
`promql.go`), with the fields the generators read. -/
structure Objective where
  Target : Float64
  Window : Duration
  Indicator : Indicator
deriving DecidableEq, Repr

/-- The guard `o.Indicator.Ratio != nil && o.Indicator.Ratio.Total.Name != ""`:
the ratio indicator when the guard holds. -/
def Objective.ratio (o : Objective) : Option RatioIndicator :=
  match o.Indicator.Ratio with
  | some r => if r.Total.Name ≠ "" then some r else none
  | none => none

/-- The guard `o.Indicator.Latency != nil && o.Indicator.Latency.Total.Name != ""`:
the latency indicator when the guard holds. -/
def Objective.latency (o : Objective) : Option LatencyIndicator :=
  match o.Indicator.Latency with
  | some l => if l.Total.Name ≠ "" then some l else none
  | none => none

/-! ## groupingLabels -/

/-- The order in which one `for l := range m` walks the keys of a map: some
rearrangement of the keys. -/
structure MapIter where
  keys : List String → List String
  perm : ∀ ks, (keys ks).Perm ks

/-- The iteration that yields the keys in the order they were first stored. -/
def MapIter.stored : MapIter := ⟨fun ks => ks, fun ks => List.Perm.refl ks⟩

/-- The iteration that yields the keys in the reverse of that order. -/
def MapIter.reversed : MapIter := ⟨fun ks => ks.reverse, fun ks => List.reverse_perm ks⟩

/-- The statement `m[k] = struct{}{}` on a `map[string]struct{}` held as the
list of its keys. -/
def mapStore (m : List String) (k : String) : List String :=
  if k ∈ m then m else m ++ [k]

/-- The statement `delete(m, k)`. -/
def mapDelete (m : List String) (k : String) : List String :=
  m.filter (fun x => x ≠ k)

/-- The function `groupingLabels`: store every error matcher's name, delete
every total matcher's name, collect the remaining keys. -/
def groupingLabels (it : MapIter) (errorMatchers totalMatchers : List Matcher) : List String :=
  let m0 : List String := errorMatchers.foldl (fun m x => mapStore m x.Name) []
  let m1 : List String := totalMatchers.foldl (fun m x => mapDelete m x.Name) m0
  it.keys m1

/-! ## The substitution engine -/

/-- The substitution record. -/
structure objectiveReplacer where
  metric : String := ""
  matchers : List Matcher := []
  errorMetric : String := ""
  errorMatchers : List Matcher := []
  grouping : List String := []
  window : Duration := 0
  target : Float64 := Float64.zero

/-- The name branch of the `*parser.VectorSelector` case. -/
def objectiveReplacer.replaceName (r : objectiveReplacer) (name : String) : String :=
  if name = "errorMetric" then r.errorMetric else r.metric

/-- The matcher branch of the `*parser.VectorSelector` case.  The `range`
walks the list the selector had on entry, assigning `n.LabelMatchers` at
every matcher named `matchers`. -/
def objectiveReplacer.replaceMatchers (r : objectiveReplacer) (ms : List Matcher) :
    List Matcher :=
  if ms.length > 1 then
    ms.foldl
      (fun cur m =>
        if m.Name = "matchers" then
          (if m.Value = "errors" then r.errorMatchers else r.matchers)
        else cur)
      ms
  else r.matchers

mutual
/-- The method `objectiveReplacer.replace`. -/
def objectiveReplacer.replace (r : objectiveReplacer) : Node → Except String Node
  | .AggregateExpr op e param grouping without => do
      let g := if grouping.length > 0 then r.grouping else grouping
      let e1 ← objectiveReplacer.replace r e
      pure (.AggregateExpr op e1 param g without)
  | .Call f args => do
      let args1 ← objectiveReplacer.replaceAll r args
      pure (.Call f args1)
  | .Expressions es => do
      let es1 ← objectiveReplacer.replaceAll r es
      pure (.Expressions es1)
  | .MatrixSelector vs _ => do
      let vs1 ← objectiveReplacer.replace r vs
      pure (.MatrixSelector vs1 r.window)
  | .VectorSelector name ms =>
      pure (.VectorSelector (r.replaceName name) (r.replaceMatchers ms))
  | .BinaryExpr op lhs rhs rb => do
      let lhs1 ← objectiveReplacer.replace r lhs
      let rhs1 ← objectiveReplacer.replace r rhs
      pure (.BinaryExpr op lhs1 rhs1 rb)
  | .ParenExpr e => do
      let e1 ← objectiveReplacer.replace r e
      pure (.ParenExpr e1)
  | .NumberLiteral v =>
      pure (.NumberLiteral (if Float64.eq v Float64.sentinel then r.target else v))
  | .StringLiteral _ => throw "no support for type *parser.StringLiteral"
  | .UnaryExpr _ _ => throw "no support for type *parser.UnaryExpr"
  | .SubqueryExpr _ _ _ => throw "no support for type *parser.SubqueryExpr"
/-- The `parser.Expressions` case: each member in turn. -/
def objectiveReplacer.replaceAll (r : objectiveReplacer) : List Node → Except String (List Node)
  | [] => pure []
  | e :: es => do
      let e1 ← objectiveReplacer.replace r e
      let es1 ← objectiveReplacer.replaceAll r es
      pure (e1 :: es1)
end

/-! ## The parsed templates -/

/-- The selector `name{}`: the parser stores the metric name as the only
matcher. -/
def bareSelector (name : String) : Node :=
  .VectorSelector name [⟨.MatchEqual, MetricName, name⟩]

/-- The selector `name{matchers="tag"}`: the written matcher, then the name
matcher the parser appends. -/
def taggedSelector (name tag : String) : Node :=
  .VectorSelector name [⟨.MatchEqual, "matchers", tag⟩, ⟨.MatchEqual, MetricName, name⟩]

/-- The call `f(sel[1s])`. -/
def overSecond (f : String) (sel : Node) : Node :=
  .Call f [.MatrixSelector sel second]

/-- The aggregation `sum by (labels) (e)`; `sum(e)` when `labels` is empty. -/
def sumBy (labels : List String) (e : Node) : Node :=
  .AggregateExpr .SUM e none labels false

/-- The call `f(name{ms}[d])` on a range selector. -/
def overRange (f : String) (name : String) (ms : List Matcher) (d : Duration) : Node :=
  .Call f [.MatrixSelector (.VectorSelector name ms) d]

/-- The parenthesised `(1 - t)`. -/
def oneMinus (t : Float64) : Node :=
  .ParenExpr (.BinaryExpr .SUB (.NumberLiteral Float64.one) (.NumberLiteral t) false)

/-- The parenthesised `(1 - 0.696969)`. -/
def oneMinusSentinel : Node :=
  oneMinus Float64.sentinel

/-- Parse of `sum by (grouping) (increase(metric{}[1s]))`, the template of
`QueryTotal` and of the Ratio branch of `QueryErrors`. -/
def parseQueryTotal : Node :=
  sumBy ["grouping"] (overSecond "increase" (bareSelector "metric"))

/-- Parse of the Latency template of `QueryErrors`:
`sum by(grouping) (increase(metric{matchers="total"}[1s])) -
 sum by(grouping) (increase(errorMetric{matchers="errors"}[1s]))`. -/
def parseQueryErrorsLatency : Node :=
  .BinaryExpr .SUB
    (sumBy ["grouping"] (overSecond "increase" (taggedSelector "metric" "total")))
    (sumBy ["grouping"] (overSecond "increase" (taggedSelector "errorMetric" "errors")))
    false

/-- Parse of the Ratio template of `QueryErrorBudget`:
`((1 - 0.696969) - (sum by(job, handler) (increase(errorMetric{matchers="errors"}[1s])
 or vector(0)) / sum by(job, handler) (increase(metric{matchers="total"}[1s])))) /
 (1 - 0.696969)`. -/
def parseErrorBudgetRatio : Node :=
  .BinaryExpr .DIV
    (.ParenExpr
      (.BinaryExpr .SUB
        oneMinusSentinel
        (.ParenExpr
          (.BinaryExpr .DIV
            (sumBy ["job", "handler"]
              (.BinaryExpr .LOR
                (overSecond "increase" (taggedSelector "errorMetric" "errors"))
                (.Call "vector" [.NumberLiteral Float64.zero])
                false))
            (sumBy ["job", "handler"]
              (overSecond "increase" (taggedSelector "metric" "total")))
            false))
        false))
    oneMinusSentinel
    false

/-- Parse of the Latency template of `QueryErrorBudget`:
`((1 - 0.696969) - (1 - sum(increase(errorMetric{matchers="errors"}[1s]) or vector(0))
 / sum(increase(metric{matchers="total"}[1s])))) / (1 - 0.696969)`; the division
binds tighter than the subtraction from `1`. -/
def parseErrorBudgetLatency : Node :=
  .BinaryExpr .DIV
    (.ParenExpr
      (.BinaryExpr .SUB
        oneMinusSentinel
        (.ParenExpr
          (.BinaryExpr .SUB
            (.NumberLiteral Float64.one)
            (.BinaryExpr .DIV
              (sumBy []
                (.BinaryExpr .LOR
                  (overSecond "increase" (taggedSelector "errorMetric" "errors"))
                  (.Call "vector" [.NumberLiteral Float64.zero])
                  false))
              (sumBy []
                (overSecond "increase" (taggedSelector "metric" "total")))
              false)
            false))
        false))
    oneMinusSentinel
    false

/-- Parse of `sum by(group) (rate(metric{}[1s])) > 0`, the Ratio template of
`RequestRange`. -/
def parseRequestRangeRatio : Node :=
  .BinaryExpr .GTR
    (sumBy ["group"] (overSecond "rate" (bareSelector "metric")))
    (.NumberLiteral Float64.zero)
    false

/-- Parse of `sum(rate(metric{}[1s]))`, the Latency template of
`RequestRange`. -/
def parseRequestRangeLatency : Node :=
  sumBy [] (overSecond "rate" (bareSelector "metric"))

/-- Parse of the Ratio template of `ErrorsRange`:
`sum by(group) (rate(errorMetric{matchers="errors"}[1s])) /
 scalar(sum(rate(metric{matchers="total"}[1s])))`. -/
def parseErrorsRangeRatio : Node :=
  .BinaryExpr .DIV
    (sumBy ["group"] (overSecond "rate" (taggedSelector "errorMetric" "errors")))
    (.Call "scalar" [sumBy [] (overSecond "rate" (taggedSelector "metric" "total"))])
    false

/-- Parse of the Latency template of `ErrorsRange`:
`sum(rate(metric{matchers="total"}[1s])) - sum(rate(errorMetric{matchers="errors"}[1s]))`. -/
def parseErrorsRangeLatency : Node :=
  .BinaryExpr .SUB
    (sumBy [] (overSecond "rate" (taggedSelector "metric" "total")))
    (sumBy [] (overSecond "rate" (taggedSelector "errorMetric" "errors")))
    false

/-! ## The generators -/

/-- The method `Objective.QueryTotal`: both guards are tried in turn, the
second overwriting the first, and the template is always substituted. -/
def Objective.QueryTotal (o : Objective) (window : Duration) : Except String Output := do
  let r0 : objectiveReplacer := { window := window }
  let r1 : objectiveReplacer :=
    match o.ratio with
    | some ratio =>
        { r0 with
          metric := ratio.Total.Name
          matchers := ratio.Total.LabelMatchers
          grouping := ratio.Grouping }
    | none => r0
  let r2 : objectiveReplacer :=
    match o.latency with
    | some latency =>
        { r1 with
          metric := latency.Total.Name
          matchers := latency.Total.LabelMatchers
          grouping := latency.Grouping }
    | none => r1
  let expr ← r2.replace parseQueryTotal
  pure (.query expr)

/-- The method `Objective.QueryErrors`. -/
def Objective.QueryErrors (o : Objective) (window : Duration) : Except String Output :=
  match o.ratio, o.latency with
  | some ratio, _ => do
      let r : objectiveReplacer :=
        { metric := ratio.Errors.Name
          matchers := ratio.Errors.LabelMatchers
          grouping := ratio.Grouping
          window := window }
      let expr ← r.replace parseQueryTotal
      pure (.query expr)
  | none, some latency => do
      let r : objectiveReplacer :=
        { metric := latency.Total.Name
          matchers := latency.Total.LabelMatchers
          errorMetric := latency.Success.Name
          errorMatchers := latency.Success.LabelMatchers
          grouping := latency.Grouping
          window := window }
      let expr ← r.replace parseQueryErrorsLatency
      pure (.query expr)
  | none, none => pure .empty

/-- The method `Objective.QueryErrorBudget`. -/
def Objective.QueryErrorBudget (o : Objective) : Except String Output :=
  match o.ratio, o.latency with
  | some ratio, _ => do
      let r : objectiveReplacer :=
        { metric := ratio.Total.Name
          matchers := ratio.Total.LabelMatchers
          errorMetric := ratio.Errors.Name
          errorMatchers := ratio.Errors.LabelMatchers
          grouping := ratio.Grouping
          window := o.Window
          target := o.Target }
      let expr ← r.replace parseErrorBudgetRatio
      pure (.query expr)
  | none, some latency => do
      let r : objectiveReplacer :=
        { metric := latency.Total.Name
          matchers := latency.Total.LabelMatchers
          errorMetric := latency.Success.Name
          errorMatchers := latency.Success.LabelMatchers
          grouping := latency.Grouping
          window := o.Window
          target := o.Target }
      let expr ← r.replace parseErrorBudgetLatency
      pure (.query expr)
  | none, none => pure .empty

/-- The method `Objective.RequestRange`; `it` is the order in which this call's
`groupingLabels` walks its map. -/
def Objective.RequestRange (it : MapIter) (o : Objective) (timerange : Duration) :
    Except String Output :=
  match o.ratio, o.latency with
  | some ratio, _ => do
      let r : objectiveReplacer :=
        { metric := ratio.Total.Name
          matchers := ratio.Total.LabelMatchers
          grouping := groupingLabels it ratio.Errors.LabelMatchers ratio.Total.LabelMatchers
          window := timerange
          target := o.Target }
      let expr ← r.replace parseRequestRangeRatio
      pure (.query expr)
  | none, some latency => do
      let r : objectiveReplacer :=
        { metric := latency.Total.Name
          matchers := latency.Total.LabelMatchers
          errorMetric := latency.Success.Name
          errorMatchers := latency.Success.LabelMatchers
          window := timerange }
      let expr ← r.replace parseRequestRangeLatency
      pure (.query expr)
  | none, none => pure .empty

/-- The method `Objective.ErrorsRange`; `it` is the order in which this call's
`groupingLabels` walks its map. -/
def Objective.ErrorsRange (it : MapIter) (o : Objective) (timerange : Duration) :
    Except String Output :=
  match o.ratio, o.latency with
  | some ratio, _ => do
      let r : objectiveReplacer :=
        { metric := ratio.Total.Name
          matchers := ratio.Total.LabelMatchers
          errorMetric := ratio.Errors.Name
          errorMatchers := ratio.Errors.LabelMatchers
          grouping := groupingLabels it ratio.Errors.LabelMatchers ratio.Total.LabelMatchers
          window := timerange }
      let expr ← r.replace parseErrorsRangeRatio
      pure (.query expr)
  | none, some latency => do
      let r : objectiveReplacer :=
        { metric := latency.Total.Name
          matchers := latency.Total.LabelMatchers
          errorMetric := latency.Success.Name
          errorMatchers := latency.Success.LabelMatchers
          window := timerange }
      let expr ← r.replace parseErrorsRangeLatency
      pure (.query expr)
  | none, none => pure .empty

/-! ## Observing trees -/

mutual
/-- Every node of a tree, the root first. -/
def Node.nodes : Node → List Node
  | .AggregateExpr op e param g w =>
      .AggregateExpr op e param g w :: (Node.nodes e ++ Node.nodesOpt param)
  | .Call f args => .Call f args :: Node.nodesAll args
  | .Expressions es => .Expressions es :: Node.nodesAll es
  | .MatrixSelector vs d => .MatrixSelector vs d :: Node.nodes vs
  | .VectorSelector name ms => [.VectorSelector name ms]
  | .BinaryExpr op lhs rhs rb => .BinaryExpr op lhs rhs rb :: (Node.nodes lhs ++ Node.nodes rhs)
  | .ParenExpr e => .ParenExpr e :: Node.nodes e
  | .NumberLiteral v => [.NumberLiteral v]
  | .StringLiteral v => [.StringLiteral v]
  | .UnaryExpr op e => .UnaryExpr op e :: Node.nodes e
  | .SubqueryExpr e d st => .SubqueryExpr e d st :: Node.nodes e
/-- The nodes under an optional child. -/
def Node.nodesOpt : Option Node → List Node
  | none => []
  | some n => Node.nodes n
/-- The nodes under a list of children. -/
def Node.nodesAll : List Node → List Node
  | [] => []
  | e :: es => Node.nodes e ++ Node.nodesAll es
end

/-- The names of the instant selectors of a tree. -/
def Node.selectorNames (n : Node) : List String :=
  n.nodes.filterMap fun
    | .VectorSelector name _ => some name
    | _ => none

/-- The matchers of the instant selectors of a tree. -/
def Node.matchers (n : Node) : List Matcher :=
  n.nodes.flatMap fun
    | .VectorSelector _ ms => ms
    | _ => []

/-- The grouping labels of the aggregations of a tree. -/
def Node.groupingLabels (n : Node) : List String :=
  n.nodes.flatMap fun
    | .AggregateExpr _ _ _ g _ => g
    | _ => []

/-- The values of the numeric literals of a tree, left to right. -/
def Node.numbers (n : Node) : List Float64 :=
  n.nodes.filterMap fun
    | .NumberLiteral v => some v
    | _ => none

/-- The ranges of the range selectors of a tree, left to right. -/
def Node.ranges (n : Node) : List Duration :=
  n.nodes.filterMap fun
    | .MatrixSelector _ d => some d
    | _ => none

mutual
/-- The tree with every range selector's range overwritten with `d`. -/
def Node.setRange (d : Duration) : Node → Node
  | .AggregateExpr op e param g w =>
      .AggregateExpr op (Node.setRange d e) (Node.setRangeOpt d param) g w
  | .Call f args => .Call f (Node.setRangeAll d args)
  | .Expressions es => .Expressions (Node.setRangeAll d es)
  | .MatrixSelector vs _ => .MatrixSelector (Node.setRange d vs) d
  | .VectorSelector name ms => .VectorSelector name ms
  | .BinaryExpr op lhs rhs rb => .BinaryExpr op (Node.setRange d lhs) (Node.setRange d rhs) rb
  | .ParenExpr e => .ParenExpr (Node.setRange d e)
  | .NumberLiteral v => .NumberLiteral v
  | .StringLiteral v => .StringLiteral v
  | .UnaryExpr op e => .UnaryExpr op (Node.setRange d e)
  | .SubqueryExpr e r st => .SubqueryExpr (Node.setRange d e) r st
/-- The same under an optional child. -/
def Node.setRangeOpt (d : Duration) : Option Node → Option Node
  | none => none
  | some n => some (Node.setRange d n)
/-- The same under a list of children. -/
def Node.setRangeAll (d : Duration) : List Node → List Node
  | [] => []
  | e :: es => Node.setRange d e :: Node.setRangeAll d es
end

mutual
/-- The tree with every aggregation's grouping list passed through `f`. -/
def Node.mapGrouping (f : List String → List String) : Node → Node
  | .AggregateExpr op e param g w =>
      .AggregateExpr op (Node.mapGrouping f e) (Node.mapGroupingOpt f param) (f g) w
  | .Call fn args => .Call fn (Node.mapGroupingAll f args)
  | .Expressions es => .Expressions (Node.mapGroupingAll f es)
  | .MatrixSelector vs d => .MatrixSelector (Node.mapGrouping f vs) d
  | .VectorSelector name ms => .VectorSelector name ms
  | .BinaryExpr op lhs rhs rb =>
      .BinaryExpr op (Node.mapGrouping f lhs) (Node.mapGrouping f rhs) rb
  | .ParenExpr e => .ParenExpr (Node.mapGrouping f e)
  | .NumberLiteral v => .NumberLiteral v
  | .StringLiteral v => .StringLiteral v
  | .UnaryExpr op e => .UnaryExpr op (Node.mapGrouping f e)
  | .SubqueryExpr e r st => .SubqueryExpr (Node.mapGrouping f e) r st
/-- The same under an optional child. -/
def Node.mapGroupingOpt (f : List String → List String) : Option Node → Option Node
  | none => none
  | some n => some (Node.mapGrouping f n)
/-- The same under a list of children. -/
def Node.mapGroupingAll (f : List String → List String) : List Node → List Node
  | [] => []
  | e :: es => Node.mapGrouping f e :: Node.mapGroupingAll f es
end

/-- A generator's output with every range overwritten. -/
def Output.setRange (d : Duration) : Output → Output
  | .empty => .empty
  | .query expr => .query (expr.setRange d)

/-- A generator's output with every grouping list passed through `f`. -/
def Output.mapGrouping (f : List String → List String) : Output → Output
  | .empty => .empty
  | .query expr => .query (expr.mapGrouping f)

/-- The ranges of a generator's output. -/
def Output.ranges : Output → List Duration
  | .empty => []
  | .query expr => expr.ranges

mutual
/-- Whether every node that `replace` visits in a tree is of one of the eight
kinds it handles.  The walk is that of `replace`: into an aggregation's inner
expression (not its parameter), a call's arguments, a list's members, a range
selector's selector, both operands, a parenthesised expression. -/
def Node.supported : Node → Bool
  | .AggregateExpr _ e _ _ _ => Node.supported e
  | .Call _ args => Node.supportedAll args
  | .Expressions es => Node.supportedAll es
  | .MatrixSelector vs _ => Node.supported vs
  | .VectorSelector _ _ => true
  | .BinaryExpr _ lhs rhs _ => Node.supported lhs && Node.supported rhs
  | .ParenExpr e => Node.supported e
  | .NumberLiteral _ => true
  | .StringLiteral _ => false
  | .UnaryExpr _ _ => false
  | .SubqueryExpr _ _ _ => false
/-- The same for the members of a list. -/
def Node.supportedAll : List Node → Bool
  | [] => true
  | e :: es => Node.supported e && Node.supportedAll es
end

/-- The placeholder metric names of the templates. -/
def sentinelNames : List String := ["metric", "errorMetric"]

/-- The placeholder grouping labels of the templates. -/
def sentinelGroupings : List String := ["grouping", "group"]

/-- Whether a tree is free of the placeholder tokens: no instant selector
named `metric` or `errorMetric`, no matcher with label name `matchers`, no
grouping label `grouping` or `group`, no numeric literal equal to `0.696969`. -/
def Node.sentinelFree (n : Node) : Bool :=
  n.selectorNames.all (fun s => !sentinelNames.contains s) &&
  n.matchers.all (fun m => m.Name != "matchers") &&
  n.groupingLabels.all (fun g => !sentinelGroupings.contains g) &&
  n.numbers.all (fun v => !Float64.eq v Float64.sentinel)

/-! ## Example objectives -/

/-- The ratio indicator of the specification's example: total
`http_requests_total{job="api"}`, errors `http_requests_total{code=~"5.."}`,
grouping `handler`. -/
def exampleRatio : RatioIndicator :=
  { Errors := Metric.mk "http_requests_total" [Matcher.mk .MatchRegexp "code" "5.."]
    Total := Metric.mk "http_requests_total" [Matcher.mk .MatchEqual "job" "api"]
    Grouping := ["handler"] }

/-- Five minutes. -/
def fiveMinutes : Duration := 300 * second

/-- The objective of the specification's example: target `0.999`, window
`5m`. -/
def exampleObjective : Objective :=
  { Target := Float64.mk 0x3FEFF7CED916872B
    Window := fiveMinutes
    Indicator := Indicator.mk (some exampleRatio) none }

/-- A latency indicator: all requests against those answered within one
second, grouped by `handler`. -/
def exampleLatency : LatencyIndicator :=
  { Success := Metric.mk "http_request_duration_seconds_bucket"
      [Matcher.mk .MatchEqual "job" "api", Matcher.mk .MatchEqual "le" "1"]
    Total := Metric.mk "http_request_duration_seconds_count" [Matcher.mk .MatchEqual "job" "api"]
    Grouping := ["handler"] }

/-- A latency objective with target `0.999` and window `5m`. -/
def exampleLatencyObjective : Objective :=
  { Target := Float64.mk 0x3FEFF7CED916872B
    Window := fiveMinutes
    Indicator := Indicator.mk none (some exampleLatency) }

/-- An objective with neither indicator variant populated. -/
def unpopulatedObjective : Objective :=
  { Target := Float64.mk 0x3FEFF7CED916872B
    Window := fiveMinutes
    Indicator := Indicator.mk none none }

/-- The example objective with target `0`. -/
def zeroTargetObjective : Objective :=
  { exampleObjective with Target := Float64.zero }

/-- A ratio objective whose errors metric is matched on two labels, `code` and
`method`, that the total metric is not matched on. -/
def twoLabelObjective : Objective :=
  { Target := Float64.mk 0x3FEFF7CED916872B
    Window := fiveMinutes
    Indicator := Indicator.mk
      (some
        { Errors := Metric.mk "http_requests_total"
            [Matcher.mk .MatchRegexp "code" "5..", Matcher.mk .MatchEqual "method" "GET"]
          Total := Metric.mk "http_requests_total" []
          Grouping := [] })
      none }

/-- The objective of the specification's example with the latency indicator
populated as well. -/
def bothObjective : Objective :=
  { Target := Float64.mk 0x3FEFF7CED916872B
    Window := fiveMinutes
    Indicator := Indicator.mk (some exampleRatio) (some exampleLatency) }

/-- The substitution record that `QueryErrorBudget` and `ErrorsRange` build
for the specification's example (grouping as configured). -/
def exampleReplacer : objectiveReplacer :=
  { metric := "http_requests_total"
    matchers := [Matcher.mk .MatchEqual "job" "api"]
    errorMetric := "http_requests_total"
    errorMatchers := [Matcher.mk .MatchRegexp "code" "5.."]
    grouping := ["handler"]
    window := fiveMinutes
    target := Float64.mk 0x3FEFF7CED916872B }

/-! ## Shapes and reached positions -/

/-- Whether a node is of one of the eight kinds `replace` has a case for
(a call's argument list, the `parser.Expressions` kind, is held inside the
call). -/
def Node.handled : Node → Bool
  | .AggregateExpr _ _ _ _ _ => true
  | .Call _ _ => true
  | .Expressions _ => true
  | .MatrixSelector _ _ => true
  | .VectorSelector _ _ => true
  | .BinaryExpr _ _ _ _ => true
  | .ParenExpr _ => true
  | .NumberLiteral _ => true
  | .StringLiteral _ => false
  | .UnaryExpr _ _ => false
  | .SubqueryExpr _ _ _ => false

mutual
/-- The nodes at the positions reached from the root through an aggregation's
inner expression, a call's arguments, an expression list's members, a range
selector's inner selector, a binary operation's operands and a parenthesised
expression. -/
def Node.reached : Node → List Node
  | .AggregateExpr op e param g w => .AggregateExpr op e param g w :: Node.reached e
  | .Call f args => .Call f args :: Node.reachedAll args
  | .Expressions es => .Expressions es :: Node.reachedAll es
  | .MatrixSelector vs d => .MatrixSelector vs d :: Node.reached vs
  | .VectorSelector name ms => [.VectorSelector name ms]
  | .BinaryExpr op lhs rhs rb => .BinaryExpr op lhs rhs rb :: (Node.reached lhs ++ Node.reached rhs)
  | .ParenExpr e => .ParenExpr e :: Node.reached e
  | .NumberLiteral v => [.NumberLiteral v]
  | .StringLiteral v => [.StringLiteral v]
  | .UnaryExpr op e => [.UnaryExpr op e]
  | .SubqueryExpr e d st => [.SubqueryExpr e d st]
/-- The same from the members of a list. -/
def Node.reachedAll : List Node → List Node
  | [] => []
  | e :: es => Node.reached e ++ Node.reachedAll es
end

mutual
/-- Whether `t'` has the shape of `t`: the same kind of node at every
position, with the same operators, function names, flags, parameters and
numbers of children.  Left free are an instant selector's name and matchers,
a range selector's range, the grouping list of an aggregation whose grouping
in `t` is non-empty, and a numeric literal that in `t` equals `0.696969`. -/
def Node.sameShape : Node → Node → Prop
  | .AggregateExpr op e param g w, t' =>
      match t' with
      | .AggregateExpr op' e' param' g' w' =>
          op' = op ∧ param' = param ∧ w' = w ∧ (g = [] → g' = []) ∧ Node.sameShape e e'
      | _ => False
  | .Call f args, t' =>
      match t' with
      | .Call f' args' => f' = f ∧ Node.sameShapeAll args args'
      | _ => False
  | .Expressions es, t' =>
      match t' with
      | .Expressions es' => Node.sameShapeAll es es'
      | _ => False
  | .MatrixSelector vs _, t' =>
      match t' with
      | .MatrixSelector vs' _ => Node.sameShape vs vs'
      | _ => False
  | .VectorSelector _ _, t' =>
      match t' with
      | .VectorSelector _ _ => True
      | _ => False
  | .BinaryExpr op lhs rhs rb, t' =>
      match t' with
      | .BinaryExpr op' lhs' rhs' rb' =>
          op' = op ∧ rb' = rb ∧ Node.sameShape lhs lhs' ∧ Node.sameShape rhs rhs'
      | _ => False
  | .ParenExpr e, t' =>
      match t' with
      | .ParenExpr e' => Node.sameShape e e'
      | _ => False
  | .NumberLiteral v, t' =>
      match t' with
      | .NumberLiteral v' => Float64.eq v Float64.sentinel = false → v' = v
      | _ => False
  | .StringLiteral v, t' =>
      match t' with
      | .StringLiteral v' => v' = v
      | _ => False
  | .UnaryExpr op e, t' =>
      match t' with
      | .UnaryExpr op' e' => op' = op ∧ Node.sameShape e e'
      | _ => False
  | .SubqueryExpr e d st, t' =>
      match t' with
      | .SubqueryExpr e' d' st' => d' = d ∧ st' = st ∧ Node.sameShape e e'
      | _ => False
/-- The same for two lists of children: equally long, member by member. -/
def Node.sameShapeAll : List Node → List Node → Prop
  | [], ts' => ts' = []
  | e :: es, ts' =>
      match ts' with
      | e' :: es' => Node.sameShape e e' ∧ Node.sameShapeAll es es'
      | [] => False
end

/-! ## Printing -/

/-- The formatting routines of the Go libraries that the printer calls on
leaves: `fmt.Sprint` of a `float64`, `model.Duration(d).String()` and the
`%q` quoting of a string. -/
structure Formats where
  float : Float64 → String
  duration : Duration → String
  quote : String → String

/-- The text of an operator token (`ItemType.String`). -/
def ItemType.text : ItemType → String
  | .SUM => "sum" | .AVG => "avg" | .COUNT => "count" | .MIN => "min" | .MAX => "max"
  | .GROUP => "group" | .STDDEV => "stddev" | .STDVAR => "stdvar"
  | .TOPK => "topk" | .BOTTOMK => "bottomk" | .COUNT_VALUES => "count_values"
  | .QUANTILE => "quantile"
  | .ADD => "+" | .SUB => "-" | .MUL => "*" | .DIV => "/" | .MOD => "%" | .POW => "^"
  | .LAND => "and" | .LOR => "or" | .LUNLESS => "unless"
  | .EQLC => "==" | .NEQ => "!=" | .LTE => "<=" | .LSS => "<" | .GTE => ">=" | .GTR => ">"

/-- The aggregators that take a parameter (`ItemType.IsAggregatorWithParam`). -/
def ItemType.IsAggregatorWithParam : ItemType → Bool
  | .TOPK => true
  | .BOTTOMK => true
  | .COUNT_VALUES => true
  | .QUANTILE => true
  | _ => false

/-- The text of a matcher operator (`MatchType.String`). -/
def MatchType.text : MatchType → String
  | .MatchEqual => "="
  | .MatchNotEqual => "!="
  | .MatchRegexp => "=~"
  | .MatchNotRegexp => "!~"

/-- The text of a matcher (`Matcher.String`): name, operator, quoted value. -/
def Matcher.text (f : Formats) (m : Matcher) : String :=
  m.Name ++ m.Typ.text ++ f.quote m.Value

/-- One step of sorting strings: `s` put in its place in a sorted list. -/
def insertString (s : String) : List String → List String
  | [] => [s]
  | x :: xs => if x < s then x :: insertString s xs else s :: x :: xs

/-- The call `sort.Strings`. -/
def sortStrings (l : List String) : List String :=
  l.foldr insertString []

/-- The Go type of a node, as `%T` and the runtime print it. -/
def Node.typeName : Node → String
  | .AggregateExpr _ _ _ _ _ => "*parser.AggregateExpr"
  | .Call _ _ => "*parser.Call"
  | .Expressions _ => "parser.Expressions"
  | .MatrixSelector _ _ => "*parser.MatrixSelector"
  | .VectorSelector _ _ => "*parser.VectorSelector"
  | .BinaryExpr _ _ _ _ => "*parser.BinaryExpr"
  | .ParenExpr _ => "*parser.ParenExpr"
  | .NumberLiteral _ => "*parser.NumberLiteral"
  | .StringLiteral _ => "*parser.StringLiteral"
  | .UnaryExpr _ _ => "*parser.UnaryExpr"
  | .SubqueryExpr _ _ _ => "*parser.SubqueryExpr"

/-- The runtime error of `make([]string, 0, len(node.LabelMatchers)-1)` on an
empty matcher list. -/
def makeslicePanic : String := "runtime error: makeslice: cap out of range"

/-- What `fmt` prints for an operand under `%s`: the result of its `String`
method, or, when that method panics, the panic wrapped in `%!s(PANIC=...)`. -/
def fmtS : Except String String → String
  | .ok s => s
  | .error msg => "%!s(PANIC=String method: " ++ msg ++ ")"

/-- The method `VectorSelector.String` of the parser library: it allocates
room for one string less than there are matchers (a panic when there are
none), leaves out the matcher `__name__="<the selector's name>"`, and prints
the name with the remaining matchers, sorted, in braces. -/
def vectorSelectorText (f : Formats) (name : String) (ms : List Matcher) :
    Except String String :=
  if ms.length = 0 then .error makeslicePanic
  else
    let labelStrings : List String :=
      (ms.filter (fun m =>
        !(m.Name == MetricName && m.Typ == MatchType.MatchEqual && m.Value == name))).map
        (Matcher.text f)
    if labelStrings.length = 0 then .ok name
    else .ok (name ++ "\x7b" ++ ",".intercalate (sortStrings labelStrings) ++ "\x7d")

mutual
/-- The `String` methods of the parser library's nodes.  A child printed
through `fmt` (`%s`) has its panic caught and printed; a child whose `String`
is called directly passes its panic on (`Except.error`). -/
def Node.text (f : Formats) : Node → Except String String
  | .AggregateExpr op e param g w =>
      let clause : String :=
        if w then " without(" ++ ", ".intercalate g ++ ") "
        else if g.length > 0 then " by(" ++ ", ".intercalate g ++ ") "
        else ""
      let par : String :=
        if op.IsAggregatorWithParam then Node.textParam f param ++ ", " else ""
      .ok (op.text ++ clause ++ "(" ++ par ++ fmtS (Node.text f e) ++ ")")
  | .Call fn args => .ok (fn ++ "(" ++ fmtS (Node.textAll f args) ++ ")")
  | .Expressions es => Node.textAll f es
  | .MatrixSelector vs d =>
      match vs with
      | .VectorSelector name ms => do
          let s ← vectorSelectorText f name ms
          pure (s ++ "[" ++ f.duration d ++ "]")
      | other =>
          .error ("interface conversion: parser.Expr is " ++ other.typeName ++
            ", not *parser.VectorSelector")
  | .VectorSelector name ms => vectorSelectorText f name ms
  | .BinaryExpr op lhs rhs rb =>
      .ok (fmtS (Node.text f lhs) ++ " " ++ op.text ++ (if rb then " bool" else "") ++ " " ++
        fmtS (Node.text f rhs))
  | .ParenExpr e => .ok ("(" ++ fmtS (Node.text f e) ++ ")")
  | .NumberLiteral v => .ok (f.float v)
  | .StringLiteral v => .ok (f.quote v)
  | .UnaryExpr op e => .ok (op.text ++ fmtS (Node.text f e))
  | .SubqueryExpr e d st => do
      let s ← Node.text f e
      pure (s ++ "[" ++ f.duration d ++ ":" ++ (if st = 0 then "" else f.duration st) ++ "]")
/-- The aggregation parameter under `%s`; a nil parameter prints as
`%!s(<nil>)`. -/
def Node.textParam (f : Formats) : Option Node → String
  | none => "%!s(<nil>)"
  | some n => fmtS (Node.text f n)
/-- The method `Expressions.String`: the members, each by a direct call of its
`String`, separated by `, `. -/
def Node.textAll (f : Formats) : List Node → Except String String
  | [] => .ok ""
  | e :: es => do
      let s ← Node.text f e
      let rest ← Node.textAll f es
      pure (if es.isEmpty then s else s ++ ", " ++ rest)
end

/-- The string a generator returns: `""`, or `expr.String()`. -/
def Output.text (f : Formats) : Output → Except String String
  | .empty => .ok ""
  | .query expr => expr.text f

/-- Whether the characters `t` stand at the start of `s`. -/
def startsWith : List Char → List Char → Bool
  | [], _ => true
  | _ :: _, [] => false
  | a :: t, b :: s => a == b && startsWith t s

/-- Whether the characters `t` occur, in a row, somewhere in `s`. -/
def occursIn (t : List Char) : List Char → Bool
  | [] => startsWith t []
  | b :: s => startsWith t (b :: s) || occursIn t s

/-- Whether the text `t` occurs in the string `s`. -/
def String.hasText (s t : String) : Bool :=
  occursIn t.data s.data

/-! ## Printing and parsing again -/

/-- The matcher `__name__="name"` that the parser appends to a selector with a
name. -/
def nameMatcher (name : String) : Matcher :=
  ⟨.MatchEqual, MetricName, name⟩

/-- The matchers of a selector read back from its printed text, taking the
parser to give back the matchers that were printed: those the printer does
not leave out (all but a matcher `__name__="<the selector's name>"`), with
the name matcher appended when the selector has a name.  The printer sorts
the matchers; their order plays no part in what follows and is kept. -/
def reparseMatchers (name : String) (ms : List Matcher) : List Matcher :=
  let printed : List Matcher :=
    ms.filter (fun m =>
      !(m.Name == MetricName && m.Typ == MatchType.MatchEqual && m.Value == name))
  if name = "" then printed else printed ++ [nameMatcher name]

mutual
/-- The tree read back from its printed text, taking the parser to give back
the tree that was printed (ranges, numbers, grouping lists and operators as
they were): the same tree, up to the matchers of every instant selector, which
come back as `reparseMatchers` gives them. -/
def Node.reparse : Node → Node
  | .AggregateExpr op e param g w =>
      .AggregateExpr op (Node.reparse e) (Node.reparseOpt param) g w
  | .Call fn args => .Call fn (Node.reparseAll args)
  | .Expressions es => .Expressions (Node.reparseAll es)
  | .MatrixSelector vs d => .MatrixSelector (Node.reparse vs) d
  | .VectorSelector name ms => .VectorSelector name (reparseMatchers name ms)
  | .BinaryExpr op lhs rhs rb => .BinaryExpr op (Node.reparse lhs) (Node.reparse rhs) rb
  | .ParenExpr e => .ParenExpr (Node.reparse e)
  | .NumberLiteral v => .NumberLiteral v
  | .StringLiteral v => .StringLiteral v
  | .UnaryExpr op e => .UnaryExpr op (Node.reparse e)
  | .SubqueryExpr e r st => .SubqueryExpr (Node.reparse e) r st
/-- The same under an optional child. -/
def Node.reparseOpt : Option Node → Option Node
  | none => none
  | some n => some (Node.reparse n)
/-- The same under a list of children. -/
def Node.reparseAll : List Node → List Node
  | [] => []
  | e :: es => Node.reparse e :: Node.reparseAll es
end

/-- The round trip on a template `t`: substitute, print and parse again,
substitute again with the same record. -/
def objectiveReplacer.roundTrip (r : objectiveReplacer) (t : Node) : Except String Node :=
  r.replace t >>= fun t1 => r.replace t1.reparse

/-- Whether the second substitution of the round trip leaves the re-parsed
tree as it is. -/
def objectiveReplacer.roundTripStable (r : objectiveReplacer) (t : Node) : Prop :=
  r.roundTrip t = (r.replace t >>= fun t1 => pure t1.reparse)

/-- The substitution record that `QueryErrors` and `QueryErrorBudget` build for
the example latency objective: the error side is the success metric, under
another name than the total metric. -/
def exampleLatencyReplacer : objectiveReplacer :=
  { metric := "http_request_duration_seconds_count"
    matchers := [Matcher.mk .MatchEqual "job" "api"]
    errorMetric := "http_request_duration_seconds_bucket"
    errorMatchers := [Matcher.mk .MatchEqual "job" "api", Matcher.mk .MatchEqual "le" "1"]
    grouping := ["handler"]
    window := fiveMinutes
    target := Float64.mk 0x3FEFF7CED916872B }

/-! ## The templates under substitution -/

theorem replace_parseQueryTotal (r : objectiveReplacer) :
    r.replace parseQueryTotal =
      .ok (sumBy r.grouping (overRange "increase" r.metric r.matchers r.window)) := rfl

theorem replace_parseQueryErrorsLatency (r : objectiveReplacer) :
    r.replace parseQueryErrorsLatency =
      .ok (.BinaryExpr .SUB
        (sumBy r.grouping (overRange "increase" r.metric r.matchers r.window))
        (sumBy r.grouping (overRange "increase" r.errorMetric r.errorMatchers r.window))
        false) := rfl

theorem replace_parseErrorBudgetRatio (r : objectiveReplacer) :
    r.replace parseErrorBudgetRatio =
      .ok (.BinaryExpr .DIV
        (.ParenExpr
          (.BinaryExpr .SUB
            (oneMinus r.target)
            (.ParenExpr
              (.BinaryExpr .DIV
                (sumBy r.grouping
                  (.BinaryExpr .LOR
                    (overRange "increase" r.errorMetric r.errorMatchers r.window)
                    (.Call "vector" [.NumberLiteral Float64.zero])
                    false))
                (sumBy r.grouping (overRange "increase" r.metric r.matchers r.window))
                false))
            false))
        (oneMinus r.target)
        false) := rfl

theorem replace_parseErrorBudgetLatency (r : objectiveReplacer) :
    r.replace parseErrorBudgetLatency =
      .ok (.BinaryExpr .DIV
        (.ParenExpr
          (.BinaryExpr .SUB
            (oneMinus r.target)
            (.ParenExpr
              (.BinaryExpr .SUB
                (.NumberLiteral Float64.one)
                (.BinaryExpr .DIV
                  (sumBy []
                    (.BinaryExpr .LOR
                      (overRange "increase" r.errorMetric r.errorMatchers r.window)
                      (.Call "vector" [.NumberLiteral Float64.zero])
                      false))
                  (sumBy [] (overRange "increase" r.metric r.matchers r.window))
                  false)
                false))
            false))
        (oneMinus r.target)
        false) := rfl

theorem replace_parseRequestRangeRatio (r : objectiveReplacer) :
    r.replace parseRequestRangeRatio =
      .ok (.BinaryExpr .GTR
        (sumBy r.grouping (overRange "rate" r.metric r.matchers r.window))
        (.NumberLiteral Float64.zero)
        false) := rfl

theorem replace_parseRequestRangeLatency (r : objectiveReplacer) :
    r.replace parseRequestRangeLatency =
      .ok (sumBy [] (overRange "rate" r.metric r.matchers r.window)) := rfl

theorem replace_parseErrorsRangeRatio (r : objectiveReplacer) :
    r.replace parseErrorsRangeRatio =
      .ok (.BinaryExpr .DIV
        (sumBy r.grouping (overRange "rate" r.errorMetric r.errorMatchers r.window))
        (.Call "scalar" [sumBy [] (overRange "rate" r.metric r.matchers r.window)])
        false) := rfl

theorem replace_parseErrorsRangeLatency (r : objectiveReplacer) :
    r.replace parseErrorsRangeLatency =
      .ok (.BinaryExpr .SUB
        (sumBy [] (overRange "rate" r.metric r.matchers r.window))
        (sumBy [] (overRange "rate" r.errorMetric r.errorMatchers r.window))
        false) := rfl

/-! ## The guards -/

theorem ratio_of_populated (o : Objective) (ratio : RatioIndicator)
    (hr : o.Indicator.Ratio = some ratio) (hn : ratio.Total.Name ≠ "") :
    o.ratio = some ratio := by
  simp [Objective.ratio, hr, hn]

theorem latency_of_populated (o : Objective) (latency : LatencyIndicator)
    (hl : o.Indicator.Latency = some latency) (hn : latency.Total.Name ≠ "") :
    o.latency = some latency := by
  simp [Objective.latency, hl, hn]

theorem ratio_of_nil (o : Objective) (hr : o.Indicator.Ratio = none) : o.ratio = none := by
  simp [Objective.ratio, hr]

theorem latency_of_nil (o : Objective) (hl : o.Indicator.Latency = none) :
    o.latency = none := by
  simp [Objective.latency, hl]

/-! ## The generators in closed form -/

theorem QueryTotal_of_ratio (o : Objective) (window : Duration) (ratio : RatioIndicator)
    (h1 : o.ratio = some ratio) (h2 : o.latency = none) :
    o.QueryTotal window =
      .ok (.query (sumBy ratio.Grouping
        (overRange "increase" ratio.Total.Name ratio.Total.LabelMatchers window))) := by
  unfold Objective.QueryTotal
  rw [h1, h2]
  rfl

theorem QueryTotal_of_latency (o : Objective) (window : Duration) (latency : LatencyIndicator)
    (h2 : o.latency = some latency) :
    o.QueryTotal window =
      .ok (.query (sumBy latency.Grouping
        (overRange "increase" latency.Total.Name latency.Total.LabelMatchers window))) := by
  unfold Objective.QueryTotal
  rw [h2]
  cases o.ratio <;> rfl

theorem QueryTotal_of_none (o : Objective) (window : Duration)
    (h1 : o.ratio = none) (h2 : o.latency = none) :
    o.QueryTotal window = .ok (.query (sumBy [] (overRange "increase" "" [] window))) := by
  unfold Objective.QueryTotal
  rw [h1, h2]
  rfl

theorem QueryErrors_of_ratio (o : Objective) (window : Duration) (ratio : RatioIndicator)
    (h1 : o.ratio = some ratio) :
    o.QueryErrors window =
      .ok (.query (sumBy ratio.Grouping
        (overRange "increase" ratio.Errors.Name ratio.Errors.LabelMatchers window))) := by
  unfold Objective.QueryErrors
  rw [h1]
  rfl

theorem QueryErrors_of_latency (o : Objective) (window : Duration) (latency : LatencyIndicator)
    (h1 : o.ratio = none) (h2 : o.latency = some latency) :
    o.QueryErrors window =
      .ok (.query (.BinaryExpr .SUB
        (sumBy latency.Grouping
          (overRange "increase" latency.Total.Name latency.Total.LabelMatchers window))
        (sumBy latency.Grouping
          (overRange "increase" latency.Success.Name latency.Success.LabelMatchers window))
        false)) := by
  unfold Objective.QueryErrors
  rw [h1, h2]
  rfl

theorem QueryErrors_of_none (o : Objective) (window : Duration)
    (h1 : o.ratio = none) (h2 : o.latency = none) :
    o.QueryErrors window = .ok .empty := by
  unfold Objective.QueryErrors
  rw [h1, h2]
  rfl

theorem QueryErrorBudget_of_ratio (o : Objective) (ratio : RatioIndicator)
    (h1 : o.ratio = some ratio) :
    o.QueryErrorBudget =
      .ok (.query (.BinaryExpr .DIV
        (.ParenExpr
          (.BinaryExpr .SUB
            (oneMinus o.Target)
            (.ParenExpr
              (.BinaryExpr .DIV
                (sumBy ratio.Grouping
                  (.BinaryExpr .LOR
                    (overRange "increase" ratio.Errors.Name ratio.Errors.LabelMatchers o.Window)
                    (.Call "vector" [.NumberLiteral Float64.zero])
                    false))
                (sumBy ratio.Grouping
                  (overRange "increase" ratio.Total.Name ratio.Total.LabelMatchers o.Window))
                false))
            false))
        (oneMinus o.Target)
        false)) := by
  unfold Objective.QueryErrorBudget
  rw [h1]
  rfl

theorem QueryErrorBudget_of_latency (o : Objective) (latency : LatencyIndicator)
    (h1 : o.ratio = none) (h2 : o.latency = some latency) :
    o.QueryErrorBudget =
      .ok (.query (.BinaryExpr .DIV
        (.ParenExpr
          (.BinaryExpr .SUB
            (oneMinus o.Target)
            (.ParenExpr
              (.BinaryExpr .SUB
                (.NumberLiteral Float64.one)
                (.BinaryExpr .DIV
                  (sumBy []
                    (.BinaryExpr .LOR
                      (overRange "increase" latency.Success.Name latency.Success.LabelMatchers
                        o.Window)
                      (.Call "vector" [.NumberLiteral Float64.zero])
                      false))
                  (sumBy []
                    (overRange "increase" latency.Total.Name latency.Total.LabelMatchers o.Window))
                  false)
                false))
            false))
        (oneMinus o.Target)
        false)) := by
  unfold Objective.QueryErrorBudget
  rw [h1, h2]
  rfl

theorem QueryErrorBudget_of_none (o : Objective) (h1 : o.ratio = none) (h2 : o.latency = none) :
    o.QueryErrorBudget = .ok .empty := by
  unfold Objective.QueryErrorBudget
  rw [h1, h2]
  rfl

theorem RequestRange_of_ratio (it : MapIter) (o : Objective) (timerange : Duration)
    (ratio : RatioIndicator) (h1 : o.ratio = some ratio) :
    o.RequestRange it timerange =
      .ok (.query (.BinaryExpr .GTR
        (sumBy (groupingLabels it ratio.Errors.LabelMatchers ratio.Total.LabelMatchers)
          (overRange "rate" ratio.Total.Name ratio.Total.LabelMatchers timerange))
        (.NumberLiteral Float64.zero)
        false)) := by
  unfold Objective.RequestRange
  rw [h1]
  rfl

theorem RequestRange_of_latency (it : MapIter) (o : Objective) (timerange : Duration)
    (latency : LatencyIndicator) (h1 : o.ratio = none) (h2 : o.latency = some latency) :
    o.RequestRange it timerange =
      .ok (.query (sumBy []
        (overRange "rate" latency.Total.Name latency.Total.LabelMatchers timerange))) := by
  unfold Objective.RequestRange
  rw [h1, h2]
  rfl

theorem RequestRange_of_none (it : MapIter) (o : Objective) (timerange : Duration)
    (h1 : o.ratio = none) (h2 : o.latency = none) :
    o.RequestRange it timerange = .ok .empty := by
  unfold Objective.RequestRange
  rw [h1, h2]
  rfl

theorem ErrorsRange_of_ratio (it : MapIter) (o : Objective) (timerange : Duration)
    (ratio : RatioIndicator) (h1 : o.ratio = some ratio) :
    o.ErrorsRange it timerange =
      .ok (.query (.BinaryExpr .DIV
        (sumBy (groupingLabels it ratio.Errors.LabelMatchers ratio.Total.LabelMatchers)
          (overRange "rate" ratio.Errors.Name ratio.Errors.LabelMatchers timerange))
        (.Call "scalar"
          [sumBy [] (overRange "rate" ratio.Total.Name ratio.Total.LabelMatchers timerange)])
        false)) := by
  unfold Objective.ErrorsRange
  rw [h1]
  rfl

theorem ErrorsRange_of_latency (it : MapIter) (o : Objective) (timerange : Duration)
    (latency : LatencyIndicator) (h1 : o.ratio = none) (h2 : o.latency = some latency) :
    o.ErrorsRange it timerange =
      .ok (.query (.BinaryExpr .SUB
        (sumBy [] (overRange "rate" latency.Total.Name latency.Total.LabelMatchers timerange))
        (sumBy []
          (overRange "rate" latency.Success.Name latency.Success.LabelMatchers timerange))
        false)) := by
  unfold Objective.ErrorsRange
  rw [h1, h2]
  rfl

theorem ErrorsRange_of_none (it : MapIter) (o : Objective) (timerange : Duration)
    (h1 : o.ratio = none) (h2 : o.latency = none) :
    o.ErrorsRange it timerange = .ok .empty := by
  unfold Objective.ErrorsRange
  rw [h1, h2]
  rfl

/-! ## The error budget of a ratio objective -/

/-- C1. For an Objective whose Ratio variant is populated with a non-empty
total metric name, `QueryErrorBudget` is the tree
`((1 - t) - (sum by (G) (increase(E{ME}[W]) or vector(0)) /
  sum by (G) (increase(T{MT}[W])))) / (1 - t)`
with `t` the target, `W` the Objective's own window, `T{MT}` and `E{ME}` the
Ratio total and errors metrics and `G` the Ratio grouping list on both
aggregations (an empty `G` is an aggregation without by-clause). -/
theorem QueryErrorBudget_ratio_tree (o : Objective) (ratio : RatioIndicator)
    (hr : o.Indicator.Ratio = some ratio) (hn : ratio.Total.Name ≠ "") :
    o.QueryErrorBudget =
      .ok (.query
        (.BinaryExpr .DIV
          (.ParenExpr
            (.BinaryExpr .SUB
              (.ParenExpr
                (.BinaryExpr .SUB (.NumberLiteral Float64.one) (.NumberLiteral o.Target) false))
              (.ParenExpr
                (.BinaryExpr .DIV
                  (.AggregateExpr .SUM
                    (.BinaryExpr .LOR
                      (.Call "increase"
                        [.MatrixSelector
                          (.VectorSelector ratio.Errors.Name ratio.Errors.LabelMatchers)
                          o.Window])
                      (.Call "vector" [.NumberLiteral Float64.zero])
                      false)
                    none ratio.Grouping false)
                  (.AggregateExpr .SUM
                    (.Call "increase"
                      [.MatrixSelector
                        (.VectorSelector ratio.Total.Name ratio.Total.LabelMatchers)
                        o.Window])
                    none ratio.Grouping false)
                  false))
              false))
          (.ParenExpr
            (.BinaryExpr .SUB (.NumberLiteral Float64.one) (.NumberLiteral o.Target) false))
          false)) := by
  rw [QueryErrorBudget_of_ratio o ratio (ratio_of_populated o ratio hr hn)]
  rfl

/-- C1 at the specification's example: target `0.999`, window `5m`, grouping
`handler`. -/
theorem QueryErrorBudget_ratio_tree_witness :
    exampleObjective.Indicator.Ratio = some exampleRatio ∧
    exampleRatio.Total.Name ≠ "" ∧
    exampleObjective.QueryErrorBudget =
      .ok (.query
        (.BinaryExpr .DIV
          (.ParenExpr
            (.BinaryExpr .SUB
              (.ParenExpr
                (.BinaryExpr .SUB (.NumberLiteral Float64.one)
                  (.NumberLiteral exampleObjective.Target) false))
              (.ParenExpr
                (.BinaryExpr .DIV
                  (.AggregateExpr .SUM
                    (.BinaryExpr .LOR
                      (.Call "increase"
                        [.MatrixSelector
                          (.VectorSelector exampleRatio.Errors.Name
                            exampleRatio.Errors.LabelMatchers)
                          exampleObjective.Window])
                      (.Call "vector" [.NumberLiteral Float64.zero])
                      false)
                    none exampleRatio.Grouping false)
                  (.AggregateExpr .SUM
                    (.Call "increase"
                      [.MatrixSelector
                        (.VectorSelector exampleRatio.Total.Name
                          exampleRatio.Total.LabelMatchers)
                        exampleObjective.Window])
                    none exampleRatio.Grouping false)
                  false))
              false))
          (.ParenExpr
            (.BinaryExpr .SUB (.NumberLiteral Float64.one)
              (.NumberLiteral exampleObjective.Target) false))
          false)) :=
  ⟨rfl, by decide, QueryErrorBudget_ratio_tree exampleObjective exampleRatio rfl (by decide)⟩

/-! ## Substitution never meets an unsupported node -/

/-- C2. For every Objective, window and range, each of the five generators
completes substitution (none ends in the panic of the unsupported-kind
branch), for whichever variant is populated; and every node that `replace`
visits in each of the nine parsed templates is of one of the eight handled
kinds. -/
theorem generators_never_panic (it : MapIter) (o : Objective) (window timerange : Duration) :
    (∃ out, o.QueryTotal window = .ok out) ∧
    (∃ out, o.QueryErrors window = .ok out) ∧
    (∃ out, o.QueryErrorBudget = .ok out) ∧
    (∃ out, o.RequestRange it timerange = .ok out) ∧
    (∃ out, o.ErrorsRange it timerange = .ok out) ∧
    parseQueryTotal.supported = true ∧
    parseQueryErrorsLatency.supported = true ∧
    parseErrorBudgetRatio.supported = true ∧
    parseErrorBudgetLatency.supported = true ∧
    parseRequestRangeRatio.supported = true ∧
    parseRequestRangeLatency.supported = true ∧
    parseErrorsRangeRatio.supported = true ∧
    parseErrorsRangeLatency.supported = true := by
  refine ⟨?_, ?_, ?_, ?_, ?_, rfl, rfl, rfl, rfl, rfl, rfl, rfl, rfl⟩
  · rcases h2 : o.latency with _ | latency
    · rcases h1 : o.ratio with _ | ratio
      · exact ⟨_, QueryTotal_of_none o window h1 h2⟩
      · exact ⟨_, QueryTotal_of_ratio o window ratio h1 h2⟩
    · exact ⟨_, QueryTotal_of_latency o window latency h2⟩
  · rcases h1 : o.ratio with _ | ratio
    · rcases h2 : o.latency with _ | latency
      · exact ⟨_, QueryErrors_of_none o window h1 h2⟩
      · exact ⟨_, QueryErrors_of_latency o window latency h1 h2⟩
    · exact ⟨_, QueryErrors_of_ratio o window ratio h1⟩
  · rcases h1 : o.ratio with _ | ratio
    · rcases h2 : o.latency with _ | latency
      · exact ⟨_, QueryErrorBudget_of_none o h1 h2⟩
      · exact ⟨_, QueryErrorBudget_of_latency o latency h1 h2⟩
    · exact ⟨_, QueryErrorBudget_of_ratio o ratio h1⟩
  · rcases h1 : o.ratio with _ | ratio
    · rcases h2 : o.latency with _ | latency
      · exact ⟨_, RequestRange_of_none it o timerange h1 h2⟩
      · exact ⟨_, RequestRange_of_latency it o timerange latency h1 h2⟩
    · exact ⟨_, RequestRange_of_ratio it o timerange ratio h1⟩
  · rcases h1 : o.ratio with _ | ratio
    · rcases h2 : o.latency with _ | latency
      · exact ⟨_, ErrorsRange_of_none it o timerange h1 h2⟩
      · exact ⟨_, ErrorsRange_of_latency it o timerange latency h1 h2⟩
    · exact ⟨_, ErrorsRange_of_ratio it o timerange ratio h1⟩

theorem mem_mapStore (m : List String) (k l : String) :
    l ∈ mapStore m k ↔ l ∈ m ∨ l = k := by
  unfold mapStore
  by_cases h : k ∈ m
  · rw [if_pos h]
    constructor
    · intro hl
      exact Or.inl hl
    · rintro (hl | rfl)
      · exact hl
      · exact h
  · rw [if_neg h]
    simp

theorem mem_mapDelete (m : List String) (k l : String) :
    l ∈ mapDelete m k ↔ l ∈ m ∧ l ≠ k := by
  simp [mapDelete]

theorem mem_foldl_mapStore (es : List Matcher) (acc : List String) (l : String) :
    l ∈ es.foldl (fun m x => mapStore m x.Name) acc ↔ l ∈ acc ∨ ∃ m ∈ es, m.Name = l := by
  induction es generalizing acc with
  | nil => simp
  | cons e es ih =>
    rw [List.foldl_cons, ih, mem_mapStore]
    constructor
    · rintro ((h | h) | ⟨m, hm, h⟩)
      · exact Or.inl h
      · exact Or.inr ⟨e, List.mem_cons_self _ _, h.symm⟩
      · exact Or.inr ⟨m, List.mem_cons_of_mem _ hm, h⟩
    · rintro (h | ⟨m, hm, h⟩)
      · exact Or.inl (Or.inl h)
      · rcases List.mem_cons.mp hm with rfl | hm
        · exact Or.inl (Or.inr h.symm)
        · exact Or.inr ⟨m, hm, h⟩

theorem mem_foldl_mapDelete (ts : List Matcher) (acc : List String) (l : String) :
    l ∈ ts.foldl (fun m x => mapDelete m x.Name) acc ↔ l ∈ acc ∧ ∀ m ∈ ts, m.Name ≠ l := by
  induction ts generalizing acc with
  | nil => simp
  | cons t ts ih =>
    rw [List.foldl_cons, ih, mem_mapDelete]
    constructor
    · rintro ⟨⟨h1, h2⟩, h3⟩
      refine ⟨h1, ?_⟩
      intro m hm
      rcases List.mem_cons.mp hm with rfl | hm
      · exact fun h => h2 h.symm
      · exact h3 m hm
    · rintro ⟨h1, h2⟩
      exact ⟨⟨h1, fun h => h2 t (List.mem_cons_self _ _) h.symm⟩,
        fun m hm => h2 m (List.mem_cons_of_mem _ hm)⟩

theorem mem_groupingLabels (it : MapIter) (errorMatchers totalMatchers : List Matcher)
    (l : String) :
    l ∈ groupingLabels it errorMatchers totalMatchers ↔
      (∃ m ∈ errorMatchers, m.Name = l) ∧ ¬ ∃ m ∈ totalMatchers, m.Name = l := by
  unfold groupingLabels
  rw [(it.perm _).mem_iff, mem_foldl_mapDelete, mem_foldl_mapStore]
  simp

theorem sentinelFree_iff (n : Node) :
    n.sentinelFree = true ↔
      (∀ s ∈ n.selectorNames, s ∉ sentinelNames) ∧
      (∀ m ∈ n.matchers, m.Name ≠ "matchers") ∧
      (∀ g ∈ n.groupingLabels, g ∉ sentinelGroupings) ∧
      (∀ v ∈ n.numbers, Float64.eq v Float64.sentinel = false) := by
  simp [Node.sentinelFree, and_assoc]

theorem eq_sentinel_zero : Float64.eq Float64.zero Float64.sentinel = false := by decide

theorem eq_sentinel_one : Float64.eq Float64.one Float64.sentinel = false := by decide

/-! ## No placeholder survives in a ratio objective's queries -/

/-- The trees handed to the printer.  For an Objective with only the Ratio
variant populated and a non-empty total metric name, whose own metric names
are not `metric` or `errorMetric`, whose matchers are on no label named
`matchers` (nor, for the errors matchers that grouping is derived from,
`grouping` or `group`), whose grouping labels are not `grouping` or `group`
and whose target is not `0.696969`: the tree each of the five generators
builds holds a selector with the configured metric name (the total metric's
for `QueryTotal` and `RequestRange`, the errors metric's for `QueryErrors`,
both for `QueryErrorBudget` and `ErrorsRange`) and none of the placeholder
tokens.  What the printer makes of that tree is `Output.text`. -/
theorem ratio_outputs_sentinelFree (it : MapIter) (o : Objective) (ratio : RatioIndicator)
    (window timerange : Duration)
    (hr : o.Indicator.Ratio = some ratio) (hl : o.Indicator.Latency = none)
    (hn : ratio.Total.Name ≠ "")
    (hT : ratio.Total.Name ∉ sentinelNames) (hE : ratio.Errors.Name ∉ sentinelNames)
    (hMT : ∀ m ∈ ratio.Total.LabelMatchers, m.Name ≠ "matchers")
    (hME : ∀ m ∈ ratio.Errors.LabelMatchers, m.Name ≠ "matchers" ∧ m.Name ∉ sentinelGroupings)
    (hG : ∀ g ∈ ratio.Grouping, g ∉ sentinelGroupings)
    (ht : Float64.eq o.Target Float64.sentinel = false) :
    (∃ t, o.QueryTotal window = .ok (.query t) ∧
      ratio.Total.Name ∈ t.selectorNames ∧ t.sentinelFree = true) ∧
    (∃ t, o.QueryErrors window = .ok (.query t) ∧
      ratio.Errors.Name ∈ t.selectorNames ∧ t.sentinelFree = true) ∧
    (∃ t, o.QueryErrorBudget = .ok (.query t) ∧
      ratio.Total.Name ∈ t.selectorNames ∧ ratio.Errors.Name ∈ t.selectorNames ∧
      t.sentinelFree = true) ∧
    (∃ t, o.RequestRange it timerange = .ok (.query t) ∧
      ratio.Total.Name ∈ t.selectorNames ∧ t.sentinelFree = true) ∧
    (∃ t, o.ErrorsRange it timerange = .ok (.query t) ∧
      ratio.Total.Name ∈ t.selectorNames ∧ ratio.Errors.Name ∈ t.selectorNames ∧
      t.sentinelFree = true) := by
  have h1 := ratio_of_populated o ratio hr hn
  have h2 := latency_of_nil o hl
  have hD : ∀ g ∈ groupingLabels it ratio.Errors.LabelMatchers ratio.Total.LabelMatchers,
      g ∉ sentinelGroupings := by
    intro g hg
    obtain ⟨⟨m, hm, rfl⟩, _⟩ := (mem_groupingLabels it _ _ g).mp hg
    exact (hME m hm).2
  have hM : ∀ m : Matcher, m ∈ ratio.Errors.LabelMatchers ∨ m ∈ ratio.Total.LabelMatchers →
      ¬ m.Name = "matchers" :=
    fun m hm => hm.elim (fun h => (hME m h).1) (hMT m)
  have hME1 : ∀ m ∈ ratio.Errors.LabelMatchers, ¬ m.Name = "matchers" :=
    fun m hm => (hME m hm).1
  have h0 := eq_sentinel_zero
  have h1' := eq_sentinel_one
  refine ⟨⟨_, QueryTotal_of_ratio o window ratio h1 h2, ?_, ?_⟩,
    ⟨_, QueryErrors_of_ratio o window ratio h1, ?_, ?_⟩,
    ⟨_, QueryErrorBudget_of_ratio o ratio h1, ?_, ?_, ?_⟩,
    ⟨_, RequestRange_of_ratio it o timerange ratio h1, ?_, ?_⟩,
    ⟨_, ErrorsRange_of_ratio it o timerange ratio h1, ?_, ?_, ?_⟩⟩
  all_goals
    first
    | rw [sentinelFree_iff]
      simp only [Node.selectorNames, Node.matchers, Node.groupingLabels, Node.numbers, sumBy,
        overRange, oneMinus, Node.nodes, Node.nodesAll, Node.nodesOpt]
      simp
      first
      | exact ⟨hT, hMT, hG⟩
      | exact ⟨hE, hME1, hG⟩
      | exact ⟨⟨hE, hT⟩, hM, hG, h1', ht, h0, h1', ht⟩
      | exact ⟨hT, hMT, hD, h0⟩
      | exact ⟨⟨hE, hT⟩, hM, hD⟩
    | simp [Node.selectorNames, sumBy, overRange, oneMinus, Node.nodes, Node.nodesAll,
        Node.nodesOpt]

/-- The trees of the specification's example objective, with window and range
`5m`. -/
theorem ratio_outputs_sentinelFree_witness :
    exampleObjective.Indicator.Ratio = some exampleRatio ∧
    exampleObjective.Indicator.Latency = none ∧
    exampleRatio.Total.Name ≠ "" ∧
    (∃ t, exampleObjective.QueryTotal fiveMinutes = .ok (.query t) ∧
      exampleRatio.Total.Name ∈ t.selectorNames ∧ t.sentinelFree = true) ∧
    (∃ t, exampleObjective.QueryErrors fiveMinutes = .ok (.query t) ∧
      exampleRatio.Errors.Name ∈ t.selectorNames ∧ t.sentinelFree = true) ∧
    (∃ t, exampleObjective.QueryErrorBudget = .ok (.query t) ∧
      exampleRatio.Total.Name ∈ t.selectorNames ∧ exampleRatio.Errors.Name ∈ t.selectorNames ∧
      t.sentinelFree = true) ∧
    (∃ t, exampleObjective.RequestRange MapIter.stored fiveMinutes = .ok (.query t) ∧
      exampleRatio.Total.Name ∈ t.selectorNames ∧ t.sentinelFree = true) ∧
    (∃ t, exampleObjective.ErrorsRange MapIter.stored fiveMinutes = .ok (.query t) ∧
      exampleRatio.Total.Name ∈ t.selectorNames ∧ exampleRatio.Errors.Name ∈ t.selectorNames ∧
      t.sentinelFree = true) :=
  ⟨rfl, rfl, by decide,
    ratio_outputs_sentinelFree MapIter.stored exampleObjective exampleRatio fiveMinutes
      fiveMinutes rfl rfl (by decide) (by decide) (by decide) (by decide) (by decide) (by decide)
      (by decide)⟩

/-- C3 (what the code does). The objective whose total metric
`http_requests_total` has no label matchers is a Ratio objective with a
non-empty total metric name and without any placeholder token of its own.
`replace` hands the printer a selector with an empty matcher list, on which
`VectorSelector.String` panics; `fmt` prints the panic in place of the call's
arguments.  `QueryTotal(5m)` returns
`sum(increase(%!s(PANIC=String method: runtime error: makeslice: cap out of range)))`,
a text in which the configured metric name does not occur, and `RequestRange`
returns the like. -/
theorem QueryTotal_text_without_matchers (f : Formats) :
    (∃ ratio, twoLabelObjective.Indicator.Ratio = some ratio ∧ ratio.Total.Name ≠ "" ∧
      ratio.Total.Name = "http_requests_total" ∧ ratio.Total.LabelMatchers = [] ∧
      ratio.Total.Name ∉ sentinelNames ∧ ratio.Errors.Name ∉ sentinelNames ∧
      (∀ m ∈ ratio.Errors.LabelMatchers,
        m.Name ≠ "matchers" ∧ m.Name ∉ sentinelGroupings) ∧
      (∀ g ∈ ratio.Grouping, g ∉ sentinelGroupings)) ∧
    twoLabelObjective.Indicator.Latency = none ∧
    Float64.eq twoLabelObjective.Target Float64.sentinel = false ∧
    (twoLabelObjective.QueryTotal fiveMinutes >>= Output.text f) =
      .ok "sum(increase(%!s(PANIC=String method: runtime error: makeslice: cap out of range)))" ∧
    String.hasText
        "sum(increase(%!s(PANIC=String method: runtime error: makeslice: cap out of range)))"
        "http_requests_total" = false ∧
    (twoLabelObjective.RequestRange MapIter.stored fiveMinutes >>= Output.text f) =
      .ok ("sum by(code, method) " ++
        "(rate(%!s(PANIC=String method: runtime error: makeslice: cap out of range))) > " ++
        f.float Float64.zero) :=
  ⟨⟨_, rfl, by decide, rfl, rfl, by decide, by decide, by decide, by decide⟩, rfl, by decide,
    rfl, by decide, rfl⟩

/-! ## The grouping deriver -/

/-- C4. A label name occurs in `groupingLabels(errorMatchers, totalMatchers)`
if and only if it is the label name of some error matcher and of no total
matcher, whatever the operators and values and whatever order the map is
walked in; so the result, as a set, is the same for rearranged inputs.  In
particular `derive({a,b,c},{b,c}) = {a}`, `derive({a},{a}) = {}` and
`derive({},{x}) = {}`. -/
theorem groupingLabels_set_difference (it it' : MapIter)
    (errorMatchers errorMatchers' totalMatchers totalMatchers' : List Matcher)
    (he : errorMatchers.Perm errorMatchers') (ht : totalMatchers.Perm totalMatchers') :
    (∀ l, l ∈ groupingLabels it errorMatchers totalMatchers ↔
      (∃ m ∈ errorMatchers, m.Name = l) ∧ ¬ ∃ m ∈ totalMatchers, m.Name = l) ∧
    (∀ l, l ∈ groupingLabels it errorMatchers totalMatchers ↔
      l ∈ groupingLabels it' errorMatchers' totalMatchers') ∧
    groupingLabels it
        [Matcher.mk .MatchEqual "a" "1", Matcher.mk .MatchRegexp "b" "2.*",
          Matcher.mk .MatchNotEqual "c" "3"]
        [Matcher.mk .MatchEqual "b" "x", Matcher.mk .MatchEqual "c" "y"] = ["a"] ∧
    groupingLabels it [Matcher.mk .MatchEqual "a" "1"] [Matcher.mk .MatchNotRegexp "a" "2"] = [] ∧
    groupingLabels it [] [Matcher.mk .MatchEqual "x" "1"] = [] := by
  refine ⟨mem_groupingLabels it errorMatchers totalMatchers, ?_, ?_, ?_, ?_⟩
  · intro l
    rw [mem_groupingLabels, mem_groupingLabels]
    have h1 : (∃ m ∈ errorMatchers, m.Name = l) ↔ (∃ m ∈ errorMatchers', m.Name = l) :=
      ⟨fun ⟨m, hm, h⟩ => ⟨m, he.mem_iff.mp hm, h⟩, fun ⟨m, hm, h⟩ => ⟨m, he.mem_iff.mpr hm, h⟩⟩
    have h2 : (∃ m ∈ totalMatchers, m.Name = l) ↔ (∃ m ∈ totalMatchers', m.Name = l) :=
      ⟨fun ⟨m, hm, h⟩ => ⟨m, ht.mem_iff.mp hm, h⟩, fun ⟨m, hm, h⟩ => ⟨m, ht.mem_iff.mpr hm, h⟩⟩
    rw [h1, h2]
  · show it.keys ["a"] = ["a"]
    exact List.perm_singleton.mp (it.perm _)
  · show it.keys [] = []
    exact List.perm_nil.mp (it.perm _)
  · show it.keys [] = []
    exact List.perm_nil.mp (it.perm _)

/-- C4 at two matcher lists and their reversals, walked in opposite orders. -/
theorem groupingLabels_set_difference_witness :
    (∀ l, l ∈ groupingLabels MapIter.stored
          [Matcher.mk .MatchRegexp "code" "5..", Matcher.mk .MatchEqual "method" "GET",
            Matcher.mk .MatchEqual "job" "api"]
          [Matcher.mk .MatchEqual "job" "api"] ↔
        l ∈ groupingLabels MapIter.reversed
          [Matcher.mk .MatchEqual "job" "api", Matcher.mk .MatchEqual "method" "GET",
            Matcher.mk .MatchRegexp "code" "5.."]
          [Matcher.mk .MatchEqual "job" "api"]) ∧
    groupingLabels MapIter.stored
        [Matcher.mk .MatchEqual "a" "1", Matcher.mk .MatchRegexp "b" "2.*",
          Matcher.mk .MatchNotEqual "c" "3"]
        [Matcher.mk .MatchEqual "b" "x", Matcher.mk .MatchEqual "c" "y"] = ["a"] :=
  have h := groupingLabels_set_difference MapIter.stored MapIter.reversed
    [Matcher.mk .MatchRegexp "code" "5..", Matcher.mk .MatchEqual "method" "GET",
      Matcher.mk .MatchEqual "job" "api"]
    [Matcher.mk .MatchEqual "job" "api", Matcher.mk .MatchEqual "method" "GET",
      Matcher.mk .MatchRegexp "code" "5.."]
    [Matcher.mk .MatchEqual "job" "api"] [Matcher.mk .MatchEqual "job" "api"]
    (List.reverse_perm _).symm (List.Perm.refl _)
  ⟨h.2.1, h.2.2.1⟩

theorem groupingLabels_perm (it it' : MapIter) (errorMatchers totalMatchers : List Matcher) :
    (groupingLabels it errorMatchers totalMatchers).Perm
      (groupingLabels it' errorMatchers totalMatchers) :=
  (it.perm _).trans (it'.perm _).symm

/-! ## An objective with no indicator -/

/-- C5 (what the code does). On an Objective with neither variant populated,
`QueryErrors`, `QueryErrorBudget`, `RequestRange` and `ErrorsRange` return the
empty string, but `QueryTotal` returns `expr.String()` of the tree it built
from an empty metric name, no matchers and no grouping (`sum(increase({}[5m]))`
in the notation of the templates), which is not the empty string. -/
theorem QueryTotal_unpopulated_not_empty :
    unpopulatedObjective.Indicator.Ratio = none ∧
    unpopulatedObjective.Indicator.Latency = none ∧
    unpopulatedObjective.QueryTotal fiveMinutes =
      .ok (.query
        (.AggregateExpr .SUM
          (.Call "increase" [.MatrixSelector (.VectorSelector "" []) fiveMinutes])
          none [] false)) ∧
    unpopulatedObjective.QueryErrors fiveMinutes = .ok .empty ∧
    unpopulatedObjective.QueryErrorBudget = .ok .empty ∧
    unpopulatedObjective.RequestRange MapIter.stored fiveMinutes = .ok .empty ∧
    unpopulatedObjective.ErrorsRange MapIter.stored fiveMinutes = .ok .empty :=
  ⟨rfl, rfl, rfl, rfl, rfl, rfl, rfl⟩

/-! ## The request and error counts -/

/-- C6. For an Objective with only the Ratio variant populated and a
non-empty total metric name, and every window `w`, `QueryTotal(w)` is the tree
`sum by (G) (increase(T{M}[w]))` with `T{M}` the Ratio total metric and `G`
the Ratio grouping list (an empty `G` is an aggregation without by-clause). -/
theorem QueryTotal_ratio_tree (o : Objective) (ratio : RatioIndicator) (window : Duration)
    (hr : o.Indicator.Ratio = some ratio) (hl : o.Indicator.Latency = none)
    (hn : ratio.Total.Name ≠ "") :
    o.QueryTotal window =
      .ok (.query
        (.AggregateExpr .SUM
          (.Call "increase"
            [.MatrixSelector (.VectorSelector ratio.Total.Name ratio.Total.LabelMatchers) window])
          none ratio.Grouping false)) := by
  rw [QueryTotal_of_ratio o window ratio (ratio_of_populated o ratio hr hn)
    (latency_of_nil o hl)]
  rfl

/-- C6 at the specification's example: a sum by `handler` of the increase of
`http_requests_total{job="api"}` over `5m`. -/
theorem QueryTotal_ratio_tree_witness :
    exampleObjective.Indicator.Ratio = some exampleRatio ∧
    exampleObjective.Indicator.Latency = none ∧
    exampleRatio.Total.Name ≠ "" ∧
    exampleObjective.QueryTotal (300 * second) =
      .ok (.query
        (.AggregateExpr .SUM
          (.Call "increase"
            [.MatrixSelector
              (.VectorSelector "http_requests_total" [Matcher.mk .MatchEqual "job" "api"])
              (300 * second)])
          none ["handler"] false)) :=
  ⟨rfl, rfl, by decide,
    QueryTotal_ratio_tree exampleObjective exampleRatio (300 * second) rfl rfl (by decide)⟩

/-- C7. For an Objective with only the Latency variant populated and a
non-empty total metric name, and every window `w`, `QueryErrors(w)` is the
subtraction of `sum by (G) (increase(S{MS}[w]))` from
`sum by (G) (increase(T{MT}[w]))`: the left leg carries the Latency total
metric and its matchers, the right leg the success metric and its matchers,
both grouped by the Latency grouping list. -/
theorem QueryErrors_latency_tree (o : Objective) (latency : LatencyIndicator)
    (window : Duration)
    (hr : o.Indicator.Ratio = none) (hl : o.Indicator.Latency = some latency)
    (hn : latency.Total.Name ≠ "") :
    o.QueryErrors window =
      .ok (.query
        (.BinaryExpr .SUB
          (.AggregateExpr .SUM
            (.Call "increase"
              [.MatrixSelector
                (.VectorSelector latency.Total.Name latency.Total.LabelMatchers) window])
            none latency.Grouping false)
          (.AggregateExpr .SUM
            (.Call "increase"
              [.MatrixSelector
                (.VectorSelector latency.Success.Name latency.Success.LabelMatchers) window])
            none latency.Grouping false)
          false)) := by
  rw [QueryErrors_of_latency o window latency (ratio_of_nil o hr)
    (latency_of_populated o latency hl hn)]
  rfl

/-- C7 at the example latency objective and window `5m`. -/
theorem QueryErrors_latency_tree_witness :
    exampleLatencyObjective.Indicator.Ratio = none ∧
    exampleLatencyObjective.Indicator.Latency = some exampleLatency ∧
    exampleLatency.Total.Name ≠ "" ∧
    exampleLatencyObjective.QueryErrors fiveMinutes =
      .ok (.query
        (.BinaryExpr .SUB
          (.AggregateExpr .SUM
            (.Call "increase"
              [.MatrixSelector
                (.VectorSelector "http_request_duration_seconds_count"
                  [Matcher.mk .MatchEqual "job" "api"])
                fiveMinutes])
            none ["handler"] false)
          (.AggregateExpr .SUM
            (.Call "increase"
              [.MatrixSelector
                (.VectorSelector "http_request_duration_seconds_bucket"
                  [Matcher.mk .MatchEqual "job" "api", Matcher.mk .MatchEqual "le" "1"])
                fiveMinutes])
            none ["handler"] false)
          false)) :=
  ⟨rfl, rfl, by decide,
    QueryErrors_latency_tree exampleLatencyObjective exampleLatency fiveMinutes rfl rfl
      (by decide)⟩

/-! ## The error rate over a range -/

/-- C8. For an Objective whose Ratio variant is populated with a non-empty
total metric name, and every range `d`, `ErrorsRange(d)` is the tree
`sum by (G') (rate(E{ME}[d])) / scalar(sum(rate(T{MT}[d])))`, where `G'` is
what this call's `groupingLabels(ME, MT)` returns: a rearrangement of what any
other walk of the map returns, holding exactly the label names of the errors
matchers that no total matcher is on.  The configured Ratio grouping list does
not occur, and the aggregation under `scalar` has no grouping. -/
theorem ErrorsRange_ratio_tree (it : MapIter) (o : Objective) (ratio : RatioIndicator)
    (timerange : Duration)
    (hr : o.Indicator.Ratio = some ratio) (hn : ratio.Total.Name ≠ "") :
    o.ErrorsRange it timerange =
      .ok (.query
        (.BinaryExpr .DIV
          (.AggregateExpr .SUM
            (.Call "rate"
              [.MatrixSelector
                (.VectorSelector ratio.Errors.Name ratio.Errors.LabelMatchers) timerange])
            none
            (groupingLabels it ratio.Errors.LabelMatchers ratio.Total.LabelMatchers)
            false)
          (.Call "scalar"
            [.AggregateExpr .SUM
              (.Call "rate"
                [.MatrixSelector
                  (.VectorSelector ratio.Total.Name ratio.Total.LabelMatchers) timerange])
              none [] false])
          false)) ∧
    (∀ it' : MapIter,
      (groupingLabels it ratio.Errors.LabelMatchers ratio.Total.LabelMatchers).Perm
        (groupingLabels it' ratio.Errors.LabelMatchers ratio.Total.LabelMatchers)) ∧
    (∀ l, l ∈ groupingLabels it ratio.Errors.LabelMatchers ratio.Total.LabelMatchers ↔
      (∃ m ∈ ratio.Errors.LabelMatchers, m.Name = l) ∧
        ¬ ∃ m ∈ ratio.Total.LabelMatchers, m.Name = l) := by
  refine ⟨?_, fun it' => groupingLabels_perm it it' _ _, mem_groupingLabels it _ _⟩
  rw [ErrorsRange_of_ratio it o timerange ratio (ratio_of_populated o ratio hr hn)]
  rfl

/-- C8 at the specification's example and range `5m`: the grouping is
`code`, the label of the errors matcher, not the configured `handler`. -/
theorem ErrorsRange_ratio_tree_witness :
    exampleObjective.Indicator.Ratio = some exampleRatio ∧
    exampleRatio.Total.Name ≠ "" ∧
    exampleObjective.ErrorsRange MapIter.stored fiveMinutes =
      .ok (.query
        (.BinaryExpr .DIV
          (.AggregateExpr .SUM
            (.Call "rate"
              [.MatrixSelector
                (.VectorSelector "http_requests_total" [Matcher.mk .MatchRegexp "code" "5.."])
                fiveMinutes])
            none ["code"] false)
          (.Call "scalar"
            [.AggregateExpr .SUM
              (.Call "rate"
                [.MatrixSelector
                  (.VectorSelector "http_requests_total" [Matcher.mk .MatchEqual "job" "api"])
                  fiveMinutes])
              none [] false])
          false)) :=
  ⟨rfl, by decide,
    (ErrorsRange_ratio_tree MapIter.stored exampleObjective exampleRatio fiveMinutes rfl
      (by decide)).1⟩

/-! ## Changing the window -/

/-- The rearrangement of grouping lists that turns `G'` into `G` and leaves
every other list as it is. -/
theorem regroup_spec (G G' : List String) (h : G.Perm G') :
    (∀ g, (if g = G' then G else g).Perm g) ∧
    (if G' = G' then G else G') = G ∧
    (if [] = G' then G else []) = [] := by
  refine ⟨?_, if_pos rfl, ?_⟩
  · intro g
    by_cases hg : g = G'
    · rw [if_pos hg, hg]
      exact h
    · rw [if_neg hg]
  · by_cases h0 : [] = G'
    · rw [if_pos h0]
      rw [← h0] at h
      exact List.perm_nil.mp h
    · rw [if_neg h0]

/-- C9 (as stated, refuted). The same objective, whose errors metric is
matched on `code` and `method`: one call of `RequestRange` for `1s` walks the
map as `code, method`, another for `5m` walks it as `method, code`.
Overwriting the range of the second output with `1s` does not give the
first. -/
theorem RequestRange_window_counterexample :
    twoLabelObjective.RequestRange MapIter.stored second =
      .ok (.query
        (.BinaryExpr .GTR
          (.AggregateExpr .SUM
            (.Call "rate" [.MatrixSelector (.VectorSelector "http_requests_total" []) second])
            none ["code", "method"] false)
          (.NumberLiteral Float64.zero) false)) ∧
    twoLabelObjective.RequestRange MapIter.reversed fiveMinutes =
      .ok (.query
        (.BinaryExpr .GTR
          (.AggregateExpr .SUM
            (.Call "rate"
              [.MatrixSelector (.VectorSelector "http_requests_total" []) fiveMinutes])
            none ["method", "code"] false)
          (.NumberLiteral Float64.zero) false)) ∧
    Node.setRange second
        (.BinaryExpr .GTR
          (.AggregateExpr .SUM
            (.Call "rate"
              [.MatrixSelector (.VectorSelector "http_requests_total" []) fiveMinutes])
            none ["method", "code"] false)
          (.NumberLiteral Float64.zero) false) ≠
      .BinaryExpr .GTR
        (.AggregateExpr .SUM
          (.Call "rate" [.MatrixSelector (.VectorSelector "http_requests_total" []) second])
          none ["code", "method"] false)
        (.NumberLiteral Float64.zero) false := by
  refine ⟨rfl, rfl, ?_⟩
  simp [Node.setRange, Node.setRangeAll, Node.setRangeOpt]

/-- C9 (amended). For every Objective and every two durations `d` and `d'`:
the output of each of `QueryTotal`, `QueryErrors`, `RequestRange` and
`ErrorsRange` for `d` holds `d` in every range-selector position, and
overwriting every range in the output for `d'` with `d` gives the output for
`d`, for `RequestRange` and `ErrorsRange` when both calls walk the map of
`groupingLabels` in the same order `it`.  When the two calls walk it in
different orders `it` and `it'`, the same holds after rearranging the labels
of the by-clauses.  So changing the window alters no metric name, no matcher
and no grouping label. -/
theorem window_changes_ranges_only (it it' : MapIter) (o : Objective) (d d' : Duration) :
    (∃ out out', o.QueryTotal d = .ok out ∧ o.QueryTotal d' = .ok out' ∧
      (∀ x ∈ out.ranges, x = d) ∧ out'.setRange d = out) ∧
    (∃ out out', o.QueryErrors d = .ok out ∧ o.QueryErrors d' = .ok out' ∧
      (∀ x ∈ out.ranges, x = d) ∧ out'.setRange d = out) ∧
    (∃ out out', o.RequestRange it d = .ok out ∧ o.RequestRange it d' = .ok out' ∧
      (∀ x ∈ out.ranges, x = d) ∧ out'.setRange d = out) ∧
    (∃ out out', o.ErrorsRange it d = .ok out ∧ o.ErrorsRange it d' = .ok out' ∧
      (∀ x ∈ out.ranges, x = d) ∧ out'.setRange d = out) ∧
    (∃ out out' σ, o.RequestRange it d = .ok out ∧ o.RequestRange it' d' = .ok out' ∧
      (∀ g : List String, (σ g).Perm g) ∧ (out'.setRange d).mapGrouping σ = out) ∧
    (∃ out out' σ, o.ErrorsRange it d = .ok out ∧ o.ErrorsRange it' d' = .ok out' ∧
      (∀ g : List String, (σ g).Perm g) ∧ (out'.setRange d).mapGrouping σ = out) := by
  have hr : ∀ (g : List String) (f n : String) (ms : List Matcher) (x : Duration),
      x ∈ (sumBy g (overRange f n ms d)).ranges → x = d := by
    intro g f n ms x hx
    simpa [Node.ranges, sumBy, overRange, Node.nodes, Node.nodesAll, Node.nodesOpt] using hx
  rcases h1 : o.ratio with _ | ratio
  · rcases h2 : o.latency with _ | latency
    · refine ⟨⟨_, _, QueryTotal_of_none o d h1 h2, QueryTotal_of_none o d' h1 h2, ?_, rfl⟩,
        ⟨_, _, QueryErrors_of_none o d h1 h2, QueryErrors_of_none o d' h1 h2, ?_, rfl⟩,
        ⟨_, _, RequestRange_of_none it o d h1 h2, RequestRange_of_none it o d' h1 h2, ?_, rfl⟩,
        ⟨_, _, ErrorsRange_of_none it o d h1 h2, ErrorsRange_of_none it o d' h1 h2, ?_, rfl⟩,
        ⟨_, _, fun g => g, RequestRange_of_none it o d h1 h2,
          RequestRange_of_none it' o d' h1 h2, fun g => List.Perm.refl g, rfl⟩,
        ⟨_, _, fun g => g, ErrorsRange_of_none it o d h1 h2,
          ErrorsRange_of_none it' o d' h1 h2, fun g => List.Perm.refl g, rfl⟩⟩
      all_goals
        intro x hx
        simp [Output.ranges, Node.ranges, sumBy, overRange, Node.nodes, Node.nodesAll,
          Node.nodesOpt] at hx
        first
        | done
        | exact hx
    · refine ⟨⟨_, _, QueryTotal_of_latency o d latency h2, QueryTotal_of_latency o d' latency h2,
          ?_, rfl⟩,
        ⟨_, _, QueryErrors_of_latency o d latency h1 h2,
          QueryErrors_of_latency o d' latency h1 h2, ?_, rfl⟩,
        ⟨_, _, RequestRange_of_latency it o d latency h1 h2,
          RequestRange_of_latency it o d' latency h1 h2, ?_, rfl⟩,
        ⟨_, _, ErrorsRange_of_latency it o d latency h1 h2,
          ErrorsRange_of_latency it o d' latency h1 h2, ?_, rfl⟩,
        ⟨_, _, fun g => g, RequestRange_of_latency it o d latency h1 h2,
          RequestRange_of_latency it' o d' latency h1 h2, fun g => List.Perm.refl g, rfl⟩,
        ⟨_, _, fun g => g, ErrorsRange_of_latency it o d latency h1 h2,
          ErrorsRange_of_latency it' o d' latency h1 h2, fun g => List.Perm.refl g, rfl⟩⟩
      all_goals
        intro x hx
        simpa [Output.ranges, Node.ranges, sumBy, overRange, Node.nodes, Node.nodesAll,
          Node.nodesOpt] using hx
  · obtain ⟨hσ, _, hnil⟩ := regroup_spec
      (groupingLabels it ratio.Errors.LabelMatchers ratio.Total.LabelMatchers)
      (groupingLabels it' ratio.Errors.LabelMatchers ratio.Total.LabelMatchers)
      (groupingLabels_perm it it' _ _)
    have hT : (∃ out out', o.QueryTotal d = .ok out ∧ o.QueryTotal d' = .ok out' ∧
        (∀ x ∈ out.ranges, x = d) ∧ out'.setRange d = out) := by
      rcases h2 : o.latency with _ | latency
      · exact ⟨_, _, QueryTotal_of_ratio o d ratio h1 h2, QueryTotal_of_ratio o d' ratio h1 h2,
          hr _ _ _ _, rfl⟩
      · exact ⟨_, _, QueryTotal_of_latency o d latency h2, QueryTotal_of_latency o d' latency h2,
          hr _ _ _ _, rfl⟩
    refine ⟨hT,
      ⟨_, _, QueryErrors_of_ratio o d ratio h1, QueryErrors_of_ratio o d' ratio h1, ?_, rfl⟩,
      ⟨_, _, RequestRange_of_ratio it o d ratio h1, RequestRange_of_ratio it o d' ratio h1,
        ?_, rfl⟩,
      ⟨_, _, ErrorsRange_of_ratio it o d ratio h1, ErrorsRange_of_ratio it o d' ratio h1,
        ?_, rfl⟩,
      ⟨_, _, _, RequestRange_of_ratio it o d ratio h1, RequestRange_of_ratio it' o d' ratio h1,
        hσ, ?_⟩,
      ⟨_, _, _, ErrorsRange_of_ratio it o d ratio h1, ErrorsRange_of_ratio it' o d' ratio h1,
        hσ, ?_⟩⟩
    · intro x hx
      simpa [Output.ranges, Node.ranges, sumBy, overRange, Node.nodes, Node.nodesAll,
        Node.nodesOpt] using hx
    · intro x hx
      simpa [Output.ranges, Node.ranges, sumBy, overRange, Node.nodes, Node.nodesAll,
        Node.nodesOpt] using hx
    · intro x hx
      simpa [Output.ranges, Node.ranges, sumBy, overRange, Node.nodes, Node.nodesAll,
        Node.nodesOpt] using hx
    · simp only [Output.setRange, Output.mapGrouping, Node.setRange, Node.setRangeAll,
        Node.setRangeOpt, Node.mapGrouping, Node.mapGroupingAll, Node.mapGroupingOpt, sumBy,
        overRange, if_true]
    · simp only [Output.setRange, Output.mapGrouping, Node.setRange, Node.setRangeAll,
        Node.setRangeOpt, Node.mapGrouping, Node.mapGroupingAll, Node.mapGroupingOpt, sumBy,
        overRange, if_true, hnil]

/-! ## The target in the error budget -/

/-- C10 (as stated, refuted). With target `0` the error budget of the example
ratio objective has three numeric literals equal to the target: the two that
replaced the placeholder `0.696969` and the template's own `0` of
`vector(0)`, in third place, where the template has no placeholder. -/
theorem QueryErrorBudget_target_counterexample :
    zeroTargetObjective.Indicator.Ratio = some exampleRatio ∧
    exampleRatio.Total.Name ≠ "" ∧
    zeroTargetObjective.Target = Float64.zero ∧
    parseErrorBudgetRatio.numbers =
      [Float64.one, Float64.sentinel, Float64.zero, Float64.one, Float64.sentinel] ∧
    ∃ t, zeroTargetObjective.QueryErrorBudget = .ok (.query t) ∧
      t.numbers = [Float64.one, Float64.zero, Float64.zero, Float64.one, Float64.zero] ∧
      t.numbers.count zeroTargetObjective.Target = 3 :=
  ⟨rfl, by decide, rfl, rfl, _, rfl, rfl, by decide⟩

/-- C10 (amended). For an Objective with the Ratio or the Latency variant
populated with a non-empty total metric name, the numeric literals of the
output of `QueryErrorBudget` are those of the template that was used, in the
same positions, with the target in place of each `0.696969`.  The template
has that placeholder twice and otherwise only the literals `0` and `1`, so
exactly two literals of the output equal the target unless the target is
itself `0` or `1`. -/
theorem QueryErrorBudget_target_positions (o : Objective)
    (h : (∃ ratio, o.Indicator.Ratio = some ratio ∧ ratio.Total.Name ≠ "") ∨
      (∃ latency, o.Indicator.Latency = some latency ∧ latency.Total.Name ≠ "")) :
    ∃ t tmpl, o.QueryErrorBudget = .ok (.query t) ∧
      ((tmpl = parseErrorBudgetRatio ∧ o.ratio.isSome = true) ∨
        (tmpl = parseErrorBudgetLatency ∧ o.ratio = none)) ∧
      t.numbers =
        tmpl.numbers.map (fun v => if Float64.eq v Float64.sentinel then o.Target else v) ∧
      tmpl.numbers.count Float64.sentinel = 2 ∧
      (∀ v ∈ tmpl.numbers, v = Float64.sentinel ∨ v = Float64.zero ∨ v = Float64.one) ∧
      (t.numbers.count o.Target = 2 ∨ o.Target = Float64.zero ∨ o.Target = Float64.one) := by
  have hcount : ∀ l : List Float64,
      (l = [Float64.one, o.Target, Float64.zero, Float64.one, o.Target] ∨
        l = [Float64.one, o.Target, Float64.one, Float64.zero, Float64.one, o.Target]) →
      l.count o.Target = 2 ∨ o.Target = Float64.zero ∨ o.Target = Float64.one := by
    intro l hl
    by_cases hz : o.Target = Float64.zero
    · exact Or.inr (Or.inl hz)
    by_cases ho : o.Target = Float64.one
    · exact Or.inr (Or.inr ho)
    left
    have hz' : (Float64.zero == o.Target) = false := by
      simpa using fun e : Float64.zero = o.Target => hz e.symm
    have ho' : (Float64.one == o.Target) = false := by
      simpa using fun e : Float64.one = o.Target => ho e.symm
    rcases hl with rfl | rfl <;> simp [List.count_cons, hz', ho']
  rcases h1 : o.ratio with _ | ratio
  · have h2 : ∃ latency, o.latency = some latency := by
      rcases h with ⟨ratio, hr, hn⟩ | ⟨latency, hl, hn⟩
      · rw [ratio_of_populated o ratio hr hn] at h1
        cases h1
      · exact ⟨latency, latency_of_populated o latency hl hn⟩
    obtain ⟨latency, h2⟩ := h2
    refine ⟨_, parseErrorBudgetLatency, QueryErrorBudget_of_latency o latency h1 h2,
      Or.inr ⟨rfl, rfl⟩, rfl, by decide, by decide, hcount _ (Or.inr rfl)⟩
  · refine ⟨_, parseErrorBudgetRatio, QueryErrorBudget_of_ratio o ratio h1,
      Or.inl ⟨rfl, rfl⟩, rfl, by decide, by decide, hcount _ (Or.inl rfl)⟩

/-- C10 (amended) at the specification's example, target `0.999`. -/
theorem QueryErrorBudget_target_positions_witness :
    exampleObjective.Indicator.Ratio = some exampleRatio ∧
    exampleRatio.Total.Name ≠ "" ∧
    ∃ t tmpl, exampleObjective.QueryErrorBudget = .ok (.query t) ∧
      ((tmpl = parseErrorBudgetRatio ∧ exampleObjective.ratio.isSome = true) ∨
        (tmpl = parseErrorBudgetLatency ∧ exampleObjective.ratio = none)) ∧
      t.numbers =
        tmpl.numbers.map
          (fun v => if Float64.eq v Float64.sentinel then exampleObjective.Target else v) ∧
      tmpl.numbers.count Float64.sentinel = 2 ∧
      (∀ v ∈ tmpl.numbers, v = Float64.sentinel ∨ v = Float64.zero ∨ v = Float64.one) ∧
      (t.numbers.count exampleObjective.Target = 2 ∨ exampleObjective.Target = Float64.zero ∨
        exampleObjective.Target = Float64.one) :=
  ⟨rfl, by decide,
    QueryErrorBudget_target_positions exampleObjective (Or.inl ⟨exampleRatio, rfl, by decide⟩)⟩

/-! ## The walk of replace -/

theorem bind_eq_ok {α β : Type} (x : Except String α) (f : α → Except String β) (b : β) :
    (x >>= f) = .ok b ↔ ∃ a, x = .ok a ∧ f a = .ok b := by
  cases x with
  | error e =>
    constructor
    · intro h
      cases h
    · rintro ⟨a, h, _⟩
      cases h
  | ok a =>
    constructor
    · intro h
      exact ⟨a, rfl, h⟩
    · rintro ⟨a', h, h'⟩
      cases h
      exact h'

theorem ok_or_error {α : Type} (x : Except String α) :
    (∃ a, x = .ok a) ∨ (∃ msg, x = .error msg) := by
  cases x with
  | error e => exact Or.inr ⟨e, rfl⟩
  | ok a => exact Or.inl ⟨a, rfl⟩

mutual
theorem replace_ok_of_supported (r : objectiveReplacer) :
    ∀ t : Node, t.supported = true → ∃ t', r.replace t = .ok t'
  | .AggregateExpr op e param g w, h => by
      simp only [Node.supported] at h
      obtain ⟨e', he⟩ := replace_ok_of_supported r e h
      exact ⟨_, by simp only [objectiveReplacer.replace, he]; rfl⟩
  | .Call f args, h => by
      simp only [Node.supported] at h
      obtain ⟨a', ha⟩ := replaceAll_ok_of_supported r args h
      exact ⟨_, by simp only [objectiveReplacer.replace, ha]; rfl⟩
  | .Expressions es, h => by
      simp only [Node.supported] at h
      obtain ⟨a', ha⟩ := replaceAll_ok_of_supported r es h
      exact ⟨_, by simp only [objectiveReplacer.replace, ha]; rfl⟩
  | .MatrixSelector vs d, h => by
      simp only [Node.supported] at h
      obtain ⟨e', he⟩ := replace_ok_of_supported r vs h
      exact ⟨_, by simp only [objectiveReplacer.replace, he]; rfl⟩
  | .VectorSelector name ms, _ => ⟨_, by simp only [objectiveReplacer.replace]; rfl⟩
  | .BinaryExpr op lhs rhs rb, h => by
      simp only [Node.supported, Bool.and_eq_true] at h
      obtain ⟨l', hl⟩ := replace_ok_of_supported r lhs h.1
      obtain ⟨r', hr⟩ := replace_ok_of_supported r rhs h.2
      exact ⟨_, by simp only [objectiveReplacer.replace, hl, hr]; rfl⟩
  | .ParenExpr e, h => by
      simp only [Node.supported] at h
      obtain ⟨e', he⟩ := replace_ok_of_supported r e h
      exact ⟨_, by simp only [objectiveReplacer.replace, he]; rfl⟩
  | .NumberLiteral v, _ => ⟨_, by simp only [objectiveReplacer.replace]; rfl⟩
  | .StringLiteral _, h => by simp [Node.supported] at h
  | .UnaryExpr _ _, h => by simp [Node.supported] at h
  | .SubqueryExpr _ _ _, h => by simp [Node.supported] at h
theorem replaceAll_ok_of_supported (r : objectiveReplacer) :
    ∀ ts : List Node, Node.supportedAll ts = true → ∃ ts', r.replaceAll ts = .ok ts'
  | [], _ => ⟨[], by simp only [objectiveReplacer.replaceAll]; rfl⟩
  | e :: es, h => by
      simp only [Node.supportedAll, Bool.and_eq_true] at h
      obtain ⟨e', he⟩ := replace_ok_of_supported r e h.1
      obtain ⟨es', hes⟩ := replaceAll_ok_of_supported r es h.2
      exact ⟨_, by simp only [objectiveReplacer.replaceAll, he, hes]; rfl⟩
end

mutual
theorem replace_ok_spec (r : objectiveReplacer) :
    ∀ t t' : Node, r.replace t = .ok t' → t.supported = true ∧ Node.sameShape t t'
  | .AggregateExpr op e param g w, t', h => by
      simp only [objectiveReplacer.replace] at h
      obtain ⟨e', he, h'⟩ := (bind_eq_ok _ _ _).mp h
      cases h'
      obtain ⟨hs, hsh⟩ := replace_ok_spec r e e' he
      refine ⟨by simpa only [Node.supported] using hs, ?_⟩
      simp only [Node.sameShape]
      refine ⟨trivial, trivial, trivial, ?_, hsh⟩
      intro hg
      simp [hg]
  | .Call f args, t', h => by
      simp only [objectiveReplacer.replace] at h
      obtain ⟨a', ha, h'⟩ := (bind_eq_ok _ _ _).mp h
      cases h'
      obtain ⟨hs, hsh⟩ := replaceAll_ok_spec r args a' ha
      exact ⟨by simpa only [Node.supported] using hs, by simpa only [Node.sameShape, true_and] using hsh⟩
  | .Expressions es, t', h => by
      simp only [objectiveReplacer.replace] at h
      obtain ⟨a', ha, h'⟩ := (bind_eq_ok _ _ _).mp h
      cases h'
      obtain ⟨hs, hsh⟩ := replaceAll_ok_spec r es a' ha
      exact ⟨by simpa only [Node.supported] using hs, by simpa only [Node.sameShape] using hsh⟩
  | .MatrixSelector vs d, t', h => by
      simp only [objectiveReplacer.replace] at h
      obtain ⟨e', he, h'⟩ := (bind_eq_ok _ _ _).mp h
      cases h'
      obtain ⟨hs, hsh⟩ := replace_ok_spec r vs e' he
      exact ⟨by simpa only [Node.supported] using hs, by simpa only [Node.sameShape] using hsh⟩
  | .VectorSelector name ms, t', h => by
      simp only [objectiveReplacer.replace] at h
      cases h
      exact ⟨rfl, by simp only [Node.sameShape]⟩
  | .BinaryExpr op lhs rhs rb, t', h => by
      simp only [objectiveReplacer.replace] at h
      obtain ⟨l', hl, h'⟩ := (bind_eq_ok _ _ _).mp h
      obtain ⟨r', hr, h''⟩ := (bind_eq_ok _ _ _).mp h'
      cases h''
      obtain ⟨hs1, hsh1⟩ := replace_ok_spec r lhs l' hl
      obtain ⟨hs2, hsh2⟩ := replace_ok_spec r rhs r' hr
      refine ⟨by simp only [Node.supported, hs1, hs2, Bool.and_self], ?_⟩
      simp only [Node.sameShape]
      exact ⟨trivial, trivial, hsh1, hsh2⟩
  | .ParenExpr e, t', h => by
      simp only [objectiveReplacer.replace] at h
      obtain ⟨e', he, h'⟩ := (bind_eq_ok _ _ _).mp h
      cases h'
      obtain ⟨hs, hsh⟩ := replace_ok_spec r e e' he
      exact ⟨by simpa only [Node.supported] using hs, by simpa only [Node.sameShape] using hsh⟩
  | .NumberLiteral v, t', h => by
      simp only [objectiveReplacer.replace] at h
      cases h
      refine ⟨rfl, ?_⟩
      simp only [Node.sameShape]
      intro hv
      simp [hv]
  | .StringLiteral _, t', h => by
      simp only [objectiveReplacer.replace] at h
      cases h
  | .UnaryExpr _ _, t', h => by
      simp only [objectiveReplacer.replace] at h
      cases h
  | .SubqueryExpr _ _ _, t', h => by
      simp only [objectiveReplacer.replace] at h
      cases h
theorem replaceAll_ok_spec (r : objectiveReplacer) :
    ∀ ts ts' : List Node, r.replaceAll ts = .ok ts' →
      Node.supportedAll ts = true ∧ Node.sameShapeAll ts ts'
  | [], ts', h => by
      simp only [objectiveReplacer.replaceAll] at h
      cases h
      exact ⟨rfl, by simp only [Node.sameShapeAll]⟩
  | e :: es, ts', h => by
      simp only [objectiveReplacer.replaceAll] at h
      obtain ⟨e', he, h'⟩ := (bind_eq_ok _ _ _).mp h
      obtain ⟨es', hes, h''⟩ := (bind_eq_ok _ _ _).mp h'
      cases h''
      obtain ⟨hs1, hsh1⟩ := replace_ok_spec r e e' he
      obtain ⟨hs2, hsh2⟩ := replaceAll_ok_spec r es es' hes
      refine ⟨by simp only [Node.supportedAll, hs1, hs2, Bool.and_self], ?_⟩
      simp only [Node.sameShapeAll]
      exact ⟨hsh1, hsh2⟩
end

mutual
theorem supported_iff_reached :
    ∀ t : Node, t.supported = true ↔ ∀ n ∈ t.reached, n.handled = true
  | .AggregateExpr op e param g w => by
      simp only [Node.supported, Node.reached, List.mem_cons, forall_eq_or_imp, Node.handled,
        true_and]
      exact supported_iff_reached e
  | .Call f args => by
      simp only [Node.supported, Node.reached, List.mem_cons, forall_eq_or_imp, Node.handled,
        true_and]
      exact supportedAll_iff_reached args
  | .Expressions es => by
      simp only [Node.supported, Node.reached, List.mem_cons, forall_eq_or_imp, Node.handled,
        true_and]
      exact supportedAll_iff_reached es
  | .MatrixSelector vs d => by
      simp only [Node.supported, Node.reached, List.mem_cons, forall_eq_or_imp, Node.handled,
        true_and]
      exact supported_iff_reached vs
  | .VectorSelector name ms => by
      simp [Node.supported, Node.reached, Node.handled]
  | .BinaryExpr op lhs rhs rb => by
      simp only [Node.supported, Node.reached, Bool.and_eq_true]
      rw [supported_iff_reached lhs, supported_iff_reached rhs]
      constructor
      · rintro ⟨h1, h2⟩ n hn
        rcases List.mem_cons.mp hn with rfl | hn
        · rfl
        · rcases List.mem_append.mp hn with hn | hn
          · exact h1 n hn
          · exact h2 n hn
      · intro h
        exact ⟨fun n hn => h n (List.mem_cons_of_mem _ (List.mem_append_left _ hn)),
          fun n hn => h n (List.mem_cons_of_mem _ (List.mem_append_right _ hn))⟩
  | .ParenExpr e => by
      simp only [Node.supported, Node.reached, List.mem_cons, forall_eq_or_imp, Node.handled,
        true_and]
      exact supported_iff_reached e
  | .NumberLiteral v => by
      simp [Node.supported, Node.reached, Node.handled]
  | .StringLiteral _ => by
      simp [Node.supported, Node.reached, Node.handled]
  | .UnaryExpr _ _ => by
      simp [Node.supported, Node.reached, Node.handled]
  | .SubqueryExpr _ _ _ => by
      simp [Node.supported, Node.reached, Node.handled]
theorem supportedAll_iff_reached :
    ∀ ts : List Node, Node.supportedAll ts = true ↔ ∀ n ∈ Node.reachedAll ts, n.handled = true
  | [] => by
      simp [Node.supportedAll, Node.reachedAll]
  | e :: es => by
      simp only [Node.supportedAll, Node.reachedAll, Bool.and_eq_true, List.mem_append, or_imp,
        forall_and]
      rw [supported_iff_reached e, supportedAll_iff_reached es]
end

/-! ## Shape and panic -/

/-- C12. Whenever `replace` completes on a tree, the result has the shape of
that tree: the same node kinds at the same positions, the same aggregation
operators, function names, binary operators, flags, parameters and child
counts.  Only instant-selector names and matcher lists, range-selector
ranges, grouping lists that were non-empty and numeric literals equal to
`0.696969` may differ. -/
theorem replace_preserves_shape (r : objectiveReplacer) (t t' : Node)
    (h : r.replace t = .ok t') : Node.sameShape t t' :=
  (replace_ok_spec r t t' h).2

/-- C12 at the example record and the Ratio template of `ErrorsRange`. -/
theorem replace_preserves_shape_witness :
    exampleReplacer.replace parseErrorsRangeRatio =
      .ok (.BinaryExpr .DIV
        (.AggregateExpr .SUM
          (.Call "rate"
            [.MatrixSelector
              (.VectorSelector "http_requests_total" [Matcher.mk .MatchRegexp "code" "5.."])
              fiveMinutes])
          none ["handler"] false)
        (.Call "scalar"
          [.AggregateExpr .SUM
            (.Call "rate"
              [.MatrixSelector
                (.VectorSelector "http_requests_total" [Matcher.mk .MatchEqual "job" "api"])
                fiveMinutes])
            none [] false])
        false) ∧
    Node.sameShape parseErrorsRangeRatio
      (.BinaryExpr .DIV
        (.AggregateExpr .SUM
          (.Call "rate"
            [.MatrixSelector
              (.VectorSelector "http_requests_total" [Matcher.mk .MatchRegexp "code" "5.."])
              fiveMinutes])
          none ["handler"] false)
        (.Call "scalar"
          [.AggregateExpr .SUM
            (.Call "rate"
              [.MatrixSelector
                (.VectorSelector "http_requests_total" [Matcher.mk .MatchEqual "job" "api"])
                fiveMinutes])
            none [] false])
        false) :=
  ⟨rfl, replace_preserves_shape exampleReplacer parseErrorsRangeRatio _ rfl⟩

/-- C13. For every record and every tree, `replace` panics if and only if
some node at a position reached through an aggregation's inner expression, a
call's arguments, an expression list's members, a range selector's inner
selector, a binary operation's operands or a parenthesised expression is not
of one of the eight handled kinds; and it completes if and only if every such
node is of a handled kind, so it never completes having skipped one. -/
theorem replace_panics_iff (r : objectiveReplacer) (t : Node) :
    ((∃ msg, r.replace t = .error msg) ↔ ∃ n ∈ t.reached, n.handled = false) ∧
    ((∃ t', r.replace t = .ok t') ↔ ∀ n ∈ t.reached, n.handled = true) := by
  have hok : (∃ t', r.replace t = .ok t') ↔ ∀ n ∈ t.reached, n.handled = true := by
    rw [← supported_iff_reached]
    exact ⟨fun ⟨t', h⟩ => (replace_ok_spec r t t' h).1, replace_ok_of_supported r t⟩
  refine ⟨?_, hok⟩
  constructor
  · rintro ⟨msg, hmsg⟩
    by_contra hne
    have hall : ∀ n ∈ t.reached, n.handled = true := by
      intro n hn
      by_contra hf
      exact hne ⟨n, hn, by simpa using hf⟩
    obtain ⟨t', ht'⟩ := hok.mpr hall
    rw [hmsg] at ht'
    cases ht'
  · rintro ⟨n, hn, hf⟩
    rcases ok_or_error (r.replace t) with ⟨t', ht'⟩ | herr
    · have := hok.mp ⟨t', ht'⟩ n hn
      rw [hf] at this
      cases this
    · exact herr

/-! ## Substituting again after the round trip through text -/

theorem foldl_matchers_of_none (r : objectiveReplacer) (ms : List Matcher) (init : List Matcher)
    (h : ∀ m ∈ ms, m.Name ≠ "matchers") :
    ms.foldl
      (fun cur m =>
        if m.Name = "matchers" then
          (if m.Value = "errors" then r.errorMatchers else r.matchers)
        else cur)
      init = init := by
  induction ms generalizing init with
  | nil => rfl
  | cons m ms ih =>
    rw [List.foldl_cons, if_neg (h m (List.mem_cons_self _ _))]
    exact ih init (fun x hx => h x (List.mem_cons_of_mem _ hx))

theorem replaceMatchers_of_none (r : objectiveReplacer) (ms : List Matcher)
    (h1 : 1 < ms.length) (h : ∀ m ∈ ms, m.Name ≠ "matchers") :
    r.replaceMatchers ms = ms := by
  unfold objectiveReplacer.replaceMatchers
  rw [if_pos h1]
  exact foldl_matchers_of_none r ms ms h

theorem replaceMatchers_of_short (r : objectiveReplacer) (ms : List Matcher)
    (h1 : ms.length ≤ 1) : r.replaceMatchers ms = r.matchers := by
  unfold objectiveReplacer.replaceMatchers
  rw [if_neg (by omega)]

theorem replaceMatchers_matchers (r : objectiveReplacer)
    (h : ∀ m ∈ r.matchers, m.Name ≠ "matchers") :
    r.replaceMatchers r.matchers = r.matchers := by
  by_cases h1 : 1 < r.matchers.length
  · exact replaceMatchers_of_none r _ h1 h
  · exact replaceMatchers_of_short r _ (by omega)

theorem replaceMatchers_errorMatchers (r : objectiveReplacer)
    (h : ∀ m ∈ r.errorMatchers, m.Name ≠ "matchers") :
    r.replaceMatchers r.errorMatchers = r.errorMatchers ↔
      (1 < r.errorMatchers.length ∨ r.errorMatchers = r.matchers) := by
  by_cases h1 : 1 < r.errorMatchers.length
  · rw [replaceMatchers_of_none r _ h1 h]
    exact ⟨fun _ => Or.inl h1, fun _ => rfl⟩
  · rw [replaceMatchers_of_short r _ (by omega)]
    constructor
    · intro h2
      exact Or.inr h2.symm
    · rintro (h2 | h2)
      · exact absurd h2 h1
      · exact h2.symm

theorem replaceName_metric (r : objectiveReplacer) (h : r.metric ≠ "errorMetric") :
    r.replaceName r.metric = r.metric := by
  unfold objectiveReplacer.replaceName
  rw [if_neg h]

theorem replaceName_errorMetric (r : objectiveReplacer) (h : r.errorMetric ≠ "errorMetric") :
    r.replaceName r.errorMetric = r.metric := by
  unfold objectiveReplacer.replaceName
  rw [if_neg h]

/-- The second substitution of a leg `sum by (g) (f(name{ms}[window]))`. -/
theorem replace_leg (r : objectiveReplacer) (f name : String) (ms : List Matcher) :
    r.replace (sumBy r.grouping (overRange f name ms r.window)) =
      .ok (sumBy r.grouping (overRange f (r.replaceName name) (r.replaceMatchers ms) r.window)) := by
  simp only [sumBy, overRange, objectiveReplacer.replace, objectiveReplacer.replaceAll, ite_self]
  rfl

theorem replace_leg_ungrouped (r : objectiveReplacer) (f name : String) (ms : List Matcher) :
    r.replace (sumBy [] (overRange f name ms r.window)) =
      .ok (sumBy [] (overRange f (r.replaceName name) (r.replaceMatchers ms) r.window)) := by
  simp only [sumBy, overRange, objectiveReplacer.replace, objectiveReplacer.replaceAll]
  rfl

theorem replace_BinaryExpr_ok (r : objectiveReplacer) (op : ItemType) (rb : Bool)
    (lhs rhs lhs' rhs' : Node) (hl : r.replace lhs = .ok lhs') (hr : r.replace rhs = .ok rhs') :
    r.replace (.BinaryExpr op lhs rhs rb) = .ok (.BinaryExpr op lhs' rhs' rb) := by
  simp only [objectiveReplacer.replace, hl, hr]
  rfl

theorem replace_ParenExpr_ok (r : objectiveReplacer) (e e' : Node) (he : r.replace e = .ok e') :
    r.replace (.ParenExpr e) = .ok (.ParenExpr e') := by
  simp only [objectiveReplacer.replace, he]
  rfl

theorem replace_Call_ok (r : objectiveReplacer) (f : String) (e e' : Node)
    (he : r.replace e = .ok e') :
    r.replace (.Call f [e]) = .ok (.Call f [e']) := by
  simp only [objectiveReplacer.replace, objectiveReplacer.replaceAll, he]
  rfl

theorem replace_zero (r : objectiveReplacer) :
    r.replace (.NumberLiteral Float64.zero) = .ok (.NumberLiteral Float64.zero) := rfl

theorem replace_one (r : objectiveReplacer) :
    r.replace (.NumberLiteral Float64.one) = .ok (.NumberLiteral Float64.one) := rfl

theorem replace_oneMinus (r : objectiveReplacer) :
    r.replace (oneMinus r.target) = .ok (oneMinus r.target) := by
  simp only [oneMinus, objectiveReplacer.replace, ite_self]
  rfl

/-- The second substitution of `increase(name{ms}[window]) or vector(0)` under
`sum by (g)`. -/
theorem replace_leg_or_zero (r : objectiveReplacer) (g : List String) (name : String)
    (ms : List Matcher) (hg : g = r.grouping ∨ g = []) :
    r.replace
        (sumBy g
          (.BinaryExpr .LOR (overRange "increase" name ms r.window)
            (.Call "vector" [.NumberLiteral Float64.zero]) false)) =
      .ok (sumBy g
        (.BinaryExpr .LOR
          (overRange "increase" (r.replaceName name) (r.replaceMatchers ms) r.window)
          (.Call "vector" [.NumberLiteral Float64.zero]) false)) := by
  rcases hg with rfl | rfl
  · simp only [sumBy, overRange, objectiveReplacer.replace, objectiveReplacer.replaceAll, ite_self]
    rfl
  · simp only [sumBy, overRange, objectiveReplacer.replace, objectiveReplacer.replaceAll]
    rfl

theorem roundTrip_parseQueryTotal (r : objectiveReplacer) :
    r.roundTrip parseQueryTotal =
      .ok (sumBy r.grouping
        (overRange "increase" (r.replaceName r.metric) (r.replaceMatchers (reparseMatchers r.metric r.matchers))
          r.window)) := by
  unfold objectiveReplacer.roundTrip
  rw [replace_parseQueryTotal]
  exact replace_leg r _ _ _

theorem roundTrip_parseRequestRangeRatio (r : objectiveReplacer) :
    r.roundTrip parseRequestRangeRatio =
      .ok (.BinaryExpr .GTR
        (sumBy r.grouping
          (overRange "rate" (r.replaceName r.metric) (r.replaceMatchers (reparseMatchers r.metric r.matchers)) r.window))
        (.NumberLiteral Float64.zero)
        false) := by
  unfold objectiveReplacer.roundTrip
  rw [replace_parseRequestRangeRatio]
  exact replace_BinaryExpr_ok r _ _ _ _ _ _ (replace_leg r _ _ _) (replace_zero r)

theorem roundTrip_parseRequestRangeLatency (r : objectiveReplacer) :
    r.roundTrip parseRequestRangeLatency =
      .ok (sumBy []
        (overRange "rate" (r.replaceName r.metric) (r.replaceMatchers (reparseMatchers r.metric r.matchers)) r.window)) := by
  unfold objectiveReplacer.roundTrip
  rw [replace_parseRequestRangeLatency]
  exact replace_leg_ungrouped r _ _ _

theorem roundTrip_parseQueryErrorsLatency (r : objectiveReplacer) :
    r.roundTrip parseQueryErrorsLatency =
      .ok (.BinaryExpr .SUB
        (sumBy r.grouping
          (overRange "increase" (r.replaceName r.metric) (r.replaceMatchers (reparseMatchers r.metric r.matchers))
            r.window))
        (sumBy r.grouping
          (overRange "increase" (r.replaceName r.errorMetric)
            (r.replaceMatchers (reparseMatchers r.errorMetric r.errorMatchers)) r.window))
        false) := by
  unfold objectiveReplacer.roundTrip
  rw [replace_parseQueryErrorsLatency]
  exact replace_BinaryExpr_ok r _ _ _ _ _ _ (replace_leg r _ _ _) (replace_leg r _ _ _)

theorem roundTrip_parseErrorBudgetRatio (r : objectiveReplacer) :
    r.roundTrip parseErrorBudgetRatio =
      .ok (.BinaryExpr .DIV
        (.ParenExpr
          (.BinaryExpr .SUB
            (oneMinus r.target)
            (.ParenExpr
              (.BinaryExpr .DIV
                (sumBy r.grouping
                  (.BinaryExpr .LOR
                    (overRange "increase" (r.replaceName r.errorMetric)
                      (r.replaceMatchers (reparseMatchers r.errorMetric r.errorMatchers)) r.window)
                    (.Call "vector" [.NumberLiteral Float64.zero])
                    false))
                (sumBy r.grouping
                  (overRange "increase" (r.replaceName r.metric)
                    (r.replaceMatchers (reparseMatchers r.metric r.matchers)) r.window))
                false))
            false))
        (oneMinus r.target)
        false) := by
  unfold objectiveReplacer.roundTrip
  rw [replace_parseErrorBudgetRatio]
  exact replace_BinaryExpr_ok r _ _ _ _ _ _
    (replace_ParenExpr_ok r _ _
      (replace_BinaryExpr_ok r _ _ _ _ _ _ (replace_oneMinus r)
        (replace_ParenExpr_ok r _ _
          (replace_BinaryExpr_ok r _ _ _ _ _ _
            (replace_leg_or_zero r _ _ _ (Or.inl rfl)) (replace_leg r _ _ _)))))
    (replace_oneMinus r)

theorem roundTrip_parseErrorBudgetLatency (r : objectiveReplacer) :
    r.roundTrip parseErrorBudgetLatency =
      .ok (.BinaryExpr .DIV
        (.ParenExpr
          (.BinaryExpr .SUB
            (oneMinus r.target)
            (.ParenExpr
              (.BinaryExpr .SUB
                (.NumberLiteral Float64.one)
                (.BinaryExpr .DIV
                  (sumBy []
                    (.BinaryExpr .LOR
                      (overRange "increase" (r.replaceName r.errorMetric)
                        (r.replaceMatchers (reparseMatchers r.errorMetric r.errorMatchers)) r.window)
                      (.Call "vector" [.NumberLiteral Float64.zero])
                      false))
                  (sumBy []
                    (overRange "increase" (r.replaceName r.metric)
                      (r.replaceMatchers (reparseMatchers r.metric r.matchers)) r.window))
                  false)
                false))
            false))
        (oneMinus r.target)
        false) := by
  unfold objectiveReplacer.roundTrip
  rw [replace_parseErrorBudgetLatency]
  exact replace_BinaryExpr_ok r _ _ _ _ _ _
    (replace_ParenExpr_ok r _ _
      (replace_BinaryExpr_ok r _ _ _ _ _ _ (replace_oneMinus r)
        (replace_ParenExpr_ok r _ _
          (replace_BinaryExpr_ok r _ _ _ _ _ _ (replace_one r)
            (replace_BinaryExpr_ok r _ _ _ _ _ _
              (replace_leg_or_zero r _ _ _ (Or.inr rfl)) (replace_leg_ungrouped r _ _ _))))))
    (replace_oneMinus r)

theorem roundTrip_parseErrorsRangeRatio (r : objectiveReplacer) :
    r.roundTrip parseErrorsRangeRatio =
      .ok (.BinaryExpr .DIV
        (sumBy r.grouping
          (overRange "rate" (r.replaceName r.errorMetric) (r.replaceMatchers (reparseMatchers r.errorMetric r.errorMatchers))
            r.window))
        (.Call "scalar"
          [sumBy []
            (overRange "rate" (r.replaceName r.metric) (r.replaceMatchers (reparseMatchers r.metric r.matchers))
              r.window)])
        false) := by
  unfold objectiveReplacer.roundTrip
  rw [replace_parseErrorsRangeRatio]
  exact replace_BinaryExpr_ok r _ _ _ _ _ _ (replace_leg r _ _ _)
    (replace_Call_ok r _ _ _ (replace_leg_ungrouped r _ _ _))

theorem roundTrip_parseErrorsRangeLatency (r : objectiveReplacer) :
    r.roundTrip parseErrorsRangeLatency =
      .ok (.BinaryExpr .SUB
        (sumBy []
          (overRange "rate" (r.replaceName r.metric) (r.replaceMatchers (reparseMatchers r.metric r.matchers)) r.window))
        (sumBy []
          (overRange "rate" (r.replaceName r.errorMetric) (r.replaceMatchers (reparseMatchers r.errorMetric r.errorMatchers))
            r.window))
        false) := by
  unfold objectiveReplacer.roundTrip
  rw [replace_parseErrorsRangeLatency]
  exact replace_BinaryExpr_ok r _ _ _ _ _ _ (replace_leg_ungrouped r _ _ _)
    (replace_leg_ungrouped r _ _ _)

theorem ok_bind {α β : Type} (a : α) (g : α → Except String β) :
    (Except.ok a >>= g) = g a := rfl

theorem reparseMatchers_of_named (name : String) (ms : List Matcher) (hn : name ≠ "")
    (hname : ∀ m ∈ ms, m.Name ≠ MetricName) :
    reparseMatchers name ms = ms ++ [nameMatcher name] := by
  unfold reparseMatchers
  dsimp only
  rw [if_neg hn, List.filter_eq_self.mpr]
  intro m hm
  simp [hname m hm]

theorem replaceMatchers_reparse (r : objectiveReplacer) (name : String) (ms : List Matcher)
    (hn : name ≠ "") (hms : ms ≠ []) (h : ∀ m ∈ ms, m.Name ≠ "matchers")
    (hname : ∀ m ∈ ms, m.Name ≠ MetricName) :
    r.replaceMatchers (reparseMatchers name ms) = reparseMatchers name ms := by
  rw [reparseMatchers_of_named name ms hn hname]
  apply replaceMatchers_of_none
  · have : 0 < ms.length := List.length_pos.mpr hms
    simp only [List.length_append, List.length_singleton]
    omega
  · intro m hm
    rcases List.mem_append.mp hm with hm | hm
    · exact h m hm
    · rw [List.mem_singleton.mp hm]
      show MetricName ≠ "matchers"
      decide

theorem vectorSelectorText_reparse (f : Formats) (name : String) (ms : List Matcher)
    (hms : ms ≠ []) (hn : name ≠ "") :
    vectorSelectorText f name (reparseMatchers name ms) = vectorSelectorText f name ms := by
  unfold reparseMatchers
  dsimp only
  rw [if_neg hn]
  have h0 : ms.length ≠ 0 := fun h => hms (List.length_eq_zero.mp h)
  have h1 : (List.filter
      (fun m => !(m.Name == MetricName && m.Typ == MatchType.MatchEqual && m.Value == name))
      ms ++ [nameMatcher name]).length ≠ 0 := by
    simp only [List.length_append, List.length_singleton]
    omega
  unfold vectorSelectorText
  rw [if_neg h0, if_neg h1, List.filter_append, List.filter_filter]
  have hf : List.filter
      (fun m => !(m.Name == MetricName && m.Typ == MatchType.MatchEqual && m.Value == name))
      [nameMatcher name] = [] := by
    simp [nameMatcher]
  rw [hf, List.append_nil]
  simp only [Bool.and_self]

theorem roundTripStable_iff (r : objectiveReplacer) (t t1 t2 : Node)
    (h1 : r.replace t = .ok t1) (h2 : r.roundTrip t = .ok t2) :
    r.roundTripStable t ↔ t2 = t1.reparse := by
  unfold objectiveReplacer.roundTripStable
  rw [h2, h1]
  exact ⟨fun h => Except.ok.inj h, fun h => congrArg Except.ok h⟩

theorem roundTrip_text (r : objectiveReplacer) (f : Formats) (t t1 t2 : Node)
    (h1 : r.replace t = .ok t1) (h2 : r.roundTrip t = .ok t2)
    (h : t2.text f = t1.text f) :
    (r.roundTrip t >>= Node.text f) = (r.replace t >>= Node.text f) := by
  rw [h2, h1]
  exact h

/-- C11 (amended). For a record whose metric name is non-empty, whose metric
names are not `errorMetric` and whose matcher lists are non-empty and on no
label named `matchers` or `__name__`, and every generator template:
substitute, print and parse again (the same tree, up to the name matcher
appended to every instant selector), substitute again with the same record.  On the templates with a
single untagged selector the second substitution leaves the re-parsed tree as
it is.  On the five templates with an error leg it does so exactly when the
record's error metric has the name of its metric.  Whenever the tree is left
as it is, the printed output is the same text as after the first
substitution. -/
theorem roundTrip_stable (r : objectiveReplacer)
    (hn : r.metric ≠ "") (hm : r.metric ≠ "errorMetric") (he : r.errorMetric ≠ "errorMetric")
    (hMs : r.matchers ≠ []) (hEs : r.errorMatchers ≠ [])
    (hM : ∀ m ∈ r.matchers, m.Name ≠ "matchers" ∧ m.Name ≠ MetricName)
    (hE : ∀ m ∈ r.errorMatchers, m.Name ≠ "matchers" ∧ m.Name ≠ MetricName) :
    (∀ t ∈ [parseQueryTotal, parseRequestRangeRatio, parseRequestRangeLatency],
      r.roundTripStable t ∧
      ∀ f : Formats, (r.roundTrip t >>= Node.text f) = (r.replace t >>= Node.text f)) ∧
    (∀ t ∈ [parseQueryErrorsLatency, parseErrorBudgetRatio, parseErrorBudgetLatency,
        parseErrorsRangeRatio, parseErrorsRangeLatency],
      (r.roundTripStable t ↔ r.errorMetric = r.metric) ∧
      (r.errorMetric = r.metric →
        ∀ f : Formats, (r.roundTrip t >>= Node.text f) = (r.replace t >>= Node.text f))) := by
  have hN := replaceName_metric r hm
  have hNE := replaceName_errorMetric r he
  have hRM := replaceMatchers_reparse r r.metric r.matchers hn hMs (fun m hm => (hM m hm).1)
    (fun m hm => (hM m hm).2)
  have hRE := replaceMatchers_reparse r r.metric r.errorMatchers hn hEs
    (fun m hm => (hE m hm).1) (fun m hm => (hE m hm).2)
  constructor
  · intro t ht
    simp only [List.mem_cons, List.mem_singleton, List.not_mem_nil, or_false] at ht
    rcases ht with rfl | rfl | rfl
    · have h1 := replace_parseQueryTotal r
      have h2 := roundTrip_parseQueryTotal r
      rw [hN, hRM] at h2
      refine ⟨(roundTripStable_iff r _ _ _ h1 h2).mpr rfl, fun f => ?_⟩
      apply roundTrip_text r f _ _ _ h1 h2
      simp only [sumBy, overRange, Node.text, Node.textAll,
        vectorSelectorText_reparse f _ _ hMs hn]
    · have h1 := replace_parseRequestRangeRatio r
      have h2 := roundTrip_parseRequestRangeRatio r
      rw [hN, hRM] at h2
      refine ⟨(roundTripStable_iff r _ _ _ h1 h2).mpr rfl, fun f => ?_⟩
      apply roundTrip_text r f _ _ _ h1 h2
      simp only [sumBy, overRange, Node.text, Node.textAll,
        vectorSelectorText_reparse f _ _ hMs hn]
    · have h1 := replace_parseRequestRangeLatency r
      have h2 := roundTrip_parseRequestRangeLatency r
      rw [hN, hRM] at h2
      refine ⟨(roundTripStable_iff r _ _ _ h1 h2).mpr rfl, fun f => ?_⟩
      apply roundTrip_text r f _ _ _ h1 h2
      simp only [sumBy, overRange, Node.text, Node.textAll,
        vectorSelectorText_reparse f _ _ hMs hn]
  · intro t ht
    simp only [List.mem_cons, List.mem_singleton, List.not_mem_nil, or_false] at ht
    rcases ht with rfl | rfl | rfl | rfl | rfl
    · have h1 := replace_parseQueryErrorsLatency r
      have h2 := roundTrip_parseQueryErrorsLatency r
      rw [hN, hNE, hRM] at h2
      refine ⟨⟨fun h => ?_, fun heq => ?_⟩, fun heq f => ?_⟩
      · have h' := (roundTripStable_iff r _ _ _ h1 h2).mp h
        simp [sumBy, overRange, oneMinus, Node.reparse, Node.reparseAll, Node.reparseOpt] at h'
        exact h'.1.symm
      · rw [heq, hRE] at h2
        rw [heq] at h1
        rw [roundTripStable_iff r _ _ _ h1 h2]
        rfl
      · rw [heq, hRE] at h2
        rw [heq] at h1
        apply roundTrip_text r f _ _ _ h1 h2
        simp only [sumBy, overRange, oneMinus, Node.text, Node.textAll,
          vectorSelectorText_reparse f _ _ hMs hn, vectorSelectorText_reparse f _ _ hEs hn]
    · have h1 := replace_parseErrorBudgetRatio r
      have h2 := roundTrip_parseErrorBudgetRatio r
      rw [hN, hNE, hRM] at h2
      refine ⟨⟨fun h => ?_, fun heq => ?_⟩, fun heq f => ?_⟩
      · have h' := (roundTripStable_iff r _ _ _ h1 h2).mp h
        simp [sumBy, overRange, oneMinus, Node.reparse, Node.reparseAll, Node.reparseOpt] at h'
        exact h'.1.symm
      · rw [heq, hRE] at h2
        rw [heq] at h1
        rw [roundTripStable_iff r _ _ _ h1 h2]
        rfl
      · rw [heq, hRE] at h2
        rw [heq] at h1
        apply roundTrip_text r f _ _ _ h1 h2
        simp only [sumBy, overRange, oneMinus, Node.text, Node.textAll,
          vectorSelectorText_reparse f _ _ hMs hn, vectorSelectorText_reparse f _ _ hEs hn]
    · have h1 := replace_parseErrorBudgetLatency r
      have h2 := roundTrip_parseErrorBudgetLatency r
      rw [hN, hNE, hRM] at h2
      refine ⟨⟨fun h => ?_, fun heq => ?_⟩, fun heq f => ?_⟩
      · have h' := (roundTripStable_iff r _ _ _ h1 h2).mp h
        simp [sumBy, overRange, oneMinus, Node.reparse, Node.reparseAll, Node.reparseOpt] at h'
        exact h'.1.symm
      · rw [heq, hRE] at h2
        rw [heq] at h1
        rw [roundTripStable_iff r _ _ _ h1 h2]
        rfl
      · rw [heq, hRE] at h2
        rw [heq] at h1
        apply roundTrip_text r f _ _ _ h1 h2
        simp only [sumBy, overRange, oneMinus, Node.text, Node.textAll,
          vectorSelectorText_reparse f _ _ hMs hn, vectorSelectorText_reparse f _ _ hEs hn]
    · have h1 := replace_parseErrorsRangeRatio r
      have h2 := roundTrip_parseErrorsRangeRatio r
      rw [hN, hNE, hRM] at h2
      refine ⟨⟨fun h => ?_, fun heq => ?_⟩, fun heq f => ?_⟩
      · have h' := (roundTripStable_iff r _ _ _ h1 h2).mp h
        simp [sumBy, overRange, oneMinus, Node.reparse, Node.reparseAll, Node.reparseOpt] at h'
        exact h'.1.symm
      · rw [heq, hRE] at h2
        rw [heq] at h1
        rw [roundTripStable_iff r _ _ _ h1 h2]
        rfl
      · rw [heq, hRE] at h2
        rw [heq] at h1
        apply roundTrip_text r f _ _ _ h1 h2
        simp only [sumBy, overRange, oneMinus, Node.text, Node.textAll,
          vectorSelectorText_reparse f _ _ hMs hn, vectorSelectorText_reparse f _ _ hEs hn]
    · have h1 := replace_parseErrorsRangeLatency r
      have h2 := roundTrip_parseErrorsRangeLatency r
      rw [hN, hNE, hRM] at h2
      refine ⟨⟨fun h => ?_, fun heq => ?_⟩, fun heq f => ?_⟩
      · have h' := (roundTripStable_iff r _ _ _ h1 h2).mp h
        simp [sumBy, overRange, oneMinus, Node.reparse, Node.reparseAll, Node.reparseOpt] at h'
        exact h'.1.symm
      · rw [heq, hRE] at h2
        rw [heq] at h1
        rw [roundTripStable_iff r _ _ _ h1 h2]
        rfl
      · rw [heq, hRE] at h2
        rw [heq] at h1
        apply roundTrip_text r f _ _ _ h1 h2
        simp only [sumBy, overRange, oneMinus, Node.text, Node.textAll,
          vectorSelectorText_reparse f _ _ hMs hn, vectorSelectorText_reparse f _ _ hEs hn]

theorem vectorSelectorText_starts (f : Formats) (name : String) (ms : List Matcher)
    (hms : ms ≠ []) : ∃ tail, vectorSelectorText f name ms = .ok (name ++ tail) := by
  have h0 : ms.length ≠ 0 := fun h => hms (List.length_eq_zero.mp h)
  unfold vectorSelectorText
  rw [if_neg h0]
  dsimp only
  split
  · exact ⟨"", by rw [String.append_empty]⟩
  · exact ⟨_, by rw [String.append_assoc, String.append_assoc]⟩

theorem text_sub_ungrouped (f : Formats) (fn n1 n2 : String) (m1 m2 : List Matcher)
    (w : Duration) (s1 s2 : String)
    (h1 : vectorSelectorText f n1 m1 = .ok s1) (h2 : vectorSelectorText f n2 m2 = .ok s2) :
    Node.text f
        (.BinaryExpr .SUB (sumBy [] (overRange fn n1 m1 w)) (sumBy [] (overRange fn n2 m2 w))
          false) =
      .ok (("sum" ++ "" ++ "(" ++ "" ++
          (fn ++ "(" ++ (s1 ++ "[" ++ f.duration w ++ "]") ++ ")") ++ ")") ++
        " " ++ "-" ++ "" ++ " " ++
        ("sum" ++ "" ++ "(" ++ "" ++
          (fn ++ "(" ++ (s2 ++ "[" ++ f.duration w ++ "]") ++ ")") ++ ")")) := by
  simp only [sumBy, overRange, Node.text, Node.textAll, h1, h2]
  rfl

theorem append_ne_of_take_ne (n : Nat) (a b x y : List Char)
    (ha : n ≤ a.length) (hb : n ≤ b.length) (h : a.take n ≠ b.take n) : a ++ x ≠ b ++ y := by
  intro e
  have := congrArg (List.take n) e
  rw [List.take_append_of_le_length ha, List.take_append_of_le_length hb] at this
  exact h this

/-- C11 at the example record, whose error metric has the name of its metric:
the round trip leaves every template's tree and printed text as they are. -/
theorem roundTrip_stable_witness :
    exampleReplacer.metric ≠ "" ∧
    exampleReplacer.errorMetric = exampleReplacer.metric ∧
    (∀ t ∈ [parseQueryTotal, parseRequestRangeRatio, parseRequestRangeLatency],
      exampleReplacer.roundTripStable t ∧
      ∀ f : Formats,
        (exampleReplacer.roundTrip t >>= Node.text f) =
          (exampleReplacer.replace t >>= Node.text f)) ∧
    (∀ t ∈ [parseQueryErrorsLatency, parseErrorBudgetRatio, parseErrorBudgetLatency,
        parseErrorsRangeRatio, parseErrorsRangeLatency],
      (exampleReplacer.roundTripStable t ↔
        exampleReplacer.errorMetric = exampleReplacer.metric) ∧
      (exampleReplacer.errorMetric = exampleReplacer.metric →
        ∀ f : Formats,
          (exampleReplacer.roundTrip t >>= Node.text f) =
            (exampleReplacer.replace t >>= Node.text f))) :=
  ⟨by decide, rfl,
    roundTrip_stable exampleReplacer (by decide) (by decide) (by decide) (by decide)
      (by decide) (by decide) (by decide)⟩

theorem roundTrip_text_changes (f : Formats) :
    (exampleLatencyReplacer.roundTrip parseErrorsRangeLatency >>= Node.text f) ≠
      (exampleLatencyReplacer.replace parseErrorsRangeLatency >>= Node.text f) := by
  obtain ⟨tailT, hT⟩ := vectorSelectorText_starts f exampleLatencyReplacer.metric
    exampleLatencyReplacer.matchers (by decide)
  obtain ⟨tail1, h1⟩ := vectorSelectorText_starts f exampleLatencyReplacer.errorMetric
    exampleLatencyReplacer.errorMatchers (by decide)
  obtain ⟨tail2, h2⟩ := vectorSelectorText_starts f exampleLatencyReplacer.metric
    (reparseMatchers exampleLatencyReplacer.errorMetric exampleLatencyReplacer.errorMatchers)
    (by decide)
  have hN := replaceName_metric exampleLatencyReplacer (by decide)
  have hNE := replaceName_errorMetric exampleLatencyReplacer (by decide)
  have hRM := replaceMatchers_reparse exampleLatencyReplacer exampleLatencyReplacer.metric
    exampleLatencyReplacer.matchers (by decide) (by decide) (by decide) (by decide)
  have hRE := replaceMatchers_reparse exampleLatencyReplacer exampleLatencyReplacer.errorMetric
    exampleLatencyReplacer.errorMatchers (by decide) (by decide) (by decide) (by decide)
  have hT' := (vectorSelectorText_reparse f exampleLatencyReplacer.metric
    exampleLatencyReplacer.matchers (by decide) (by decide)).trans hT
  intro h
  rw [roundTrip_parseErrorsRangeLatency, replace_parseErrorsRangeLatency, ok_bind, ok_bind,
    hN, hNE, hRM, hRE] at h
  rw [text_sub_ungrouped f _ _ _ _ _ _ _ _ hT' h2, text_sub_ungrouped f _ _ _ _ _ _ _ _ hT h1]
    at h
  have hd := congrArg String.data (Except.ok.inj h)
  simp only [String.data_append, List.append_assoc, List.append_cancel_left_eq] at hd
  exact append_ne_of_take_ne 31 _ _ _ _ (by decide) (by decide) (by decide) hd

/-- C11 (as stated, refuted). The record of the example latency objective, whose
success metric `http_request_duration_seconds_bucket` has another name than
its total metric `http_request_duration_seconds_count`, on the Latency
template of `ErrorsRange`: after printing and parsing again, the second
substitution renames the success selector to the total metric while the name
matcher it was read back with keeps the old name.  The tree is not the one
that was read back, and the printed text is not the text of the first
substitution, whatever the formatting of durations and quoted values. -/
theorem roundTrip_counterexample :
    exampleLatencyReplacer.replace parseErrorsRangeLatency =
      .ok (.BinaryExpr .SUB
        (sumBy []
          (overRange "rate" "http_request_duration_seconds_count"
            [Matcher.mk .MatchEqual "job" "api"] fiveMinutes))
        (sumBy []
          (overRange "rate" "http_request_duration_seconds_bucket"
            [Matcher.mk .MatchEqual "job" "api", Matcher.mk .MatchEqual "le" "1"] fiveMinutes))
        false) ∧
    (exampleLatencyReplacer.replace parseErrorsRangeLatency >>= fun t1 => pure t1.reparse) =
      .ok (.BinaryExpr .SUB
        (sumBy []
          (overRange "rate" "http_request_duration_seconds_count"
            [Matcher.mk .MatchEqual "job" "api",
              Matcher.mk .MatchEqual "__name__" "http_request_duration_seconds_count"]
            fiveMinutes))
        (sumBy []
          (overRange "rate" "http_request_duration_seconds_bucket"
            [Matcher.mk .MatchEqual "job" "api", Matcher.mk .MatchEqual "le" "1",
              Matcher.mk .MatchEqual "__name__" "http_request_duration_seconds_bucket"]
            fiveMinutes))
        false) ∧
    exampleLatencyReplacer.roundTrip parseErrorsRangeLatency =
      .ok (.BinaryExpr .SUB
        (sumBy []
          (overRange "rate" "http_request_duration_seconds_count"
            [Matcher.mk .MatchEqual "job" "api",
              Matcher.mk .MatchEqual "__name__" "http_request_duration_seconds_count"]
            fiveMinutes))
        (sumBy []
          (overRange "rate" "http_request_duration_seconds_count"
            [Matcher.mk .MatchEqual "job" "api", Matcher.mk .MatchEqual "le" "1",
              Matcher.mk .MatchEqual "__name__" "http_request_duration_seconds_bucket"]
            fiveMinutes))
        false) ∧
    ¬ exampleLatencyReplacer.roundTripStable parseErrorsRangeLatency ∧
    ∀ f : Formats,
      (exampleLatencyReplacer.roundTrip parseErrorsRangeLatency >>= Node.text f) ≠
        (exampleLatencyReplacer.replace parseErrorsRangeLatency >>= Node.text f) := by
  refine ⟨rfl, rfl, rfl, ?_, roundTrip_text_changes⟩
  intro h
  have h' := (roundTripStable_iff exampleLatencyReplacer parseErrorsRangeLatency _ _
    (replace_parseErrorsRangeLatency _) (roundTrip_parseErrorsRangeLatency _)).mp h
  simp [sumBy, overRange, Node.reparse, Node.reparseAll, Node.reparseOpt, exampleLatencyReplacer,
    objectiveReplacer.replaceName] at h'

/-! ## Both variants populated -/

/-- C14 (what the code does). On the example objective with the latency
indicator populated as well, `QueryErrors`, `QueryErrorBudget`,
`RequestRange` and `ErrorsRange` return what they return once the Latency
variant is removed, but `QueryTotal` returns the query over the Latency total
metric `http_request_duration_seconds_count`, not the one over the Ratio
total metric `http_requests_total`. -/
theorem QueryTotal_both_populated :
    bothObjective.Indicator.Ratio = some exampleRatio ∧
    bothObjective.Indicator.Latency = some exampleLatency ∧
    exampleObjective =
      { bothObjective with Indicator := { bothObjective.Indicator with Latency := none } } ∧
    bothObjective.QueryTotal fiveMinutes =
      .ok (.query
        (.AggregateExpr .SUM
          (.Call "increase"
            [.MatrixSelector
              (.VectorSelector "http_request_duration_seconds_count"
                [Matcher.mk .MatchEqual "job" "api"])
              fiveMinutes])
          none ["handler"] false)) ∧
    exampleObjective.QueryTotal fiveMinutes =
      .ok (.query
        (.AggregateExpr .SUM
          (.Call "increase"
            [.MatrixSelector
              (.VectorSelector "http_requests_total" [Matcher.mk .MatchEqual "job" "api"])
              fiveMinutes])
          none ["handler"] false)) ∧
    bothObjective.QueryErrors fiveMinutes = exampleObjective.QueryErrors fiveMinutes ∧
    bothObjective.QueryErrorBudget = exampleObjective.QueryErrorBudget ∧
    bothObjective.RequestRange MapIter.stored fiveMinutes =
      exampleObjective.RequestRange MapIter.stored fiveMinutes ∧
    bothObjective.ErrorsRange MapIter.stored fiveMinutes =
      exampleObjective.ErrorsRange MapIter.stored fiveMinutes :=
  ⟨rfl, rfl, rfl, rfl, rfl, rfl, rfl, rfl, rfl⟩

/-! ## No label twice -/

theorem nodup_mapStore (m : List String) (k : String) (h : m.Nodup) : (mapStore m k).Nodup := by
  unfold mapStore
  by_cases hk : k ∈ m
  · rw [if_pos hk]
    exact h
  · rw [if_neg hk]
    exact List.Nodup.append h (List.nodup_singleton k) (by simpa using hk)

theorem nodup_foldl_mapStore (es : List Matcher) (acc : List String) (h : acc.Nodup) :
    (es.foldl (fun m x => mapStore m x.Name) acc).Nodup := by
  induction es generalizing acc with
  | nil => exact h
  | cons e es ih => exact ih _ (nodup_mapStore acc e.Name h)

theorem nodup_foldl_mapDelete (ts : List Matcher) (acc : List String) (h : acc.Nodup) :
    (ts.foldl (fun m x => mapDelete m x.Name) acc).Nodup := by
  induction ts generalizing acc with
  | nil => exact h
  | cons t ts ih => exact ih _ (h.filter _)

/-- C15. The list returned by `groupingLabels` never holds the same label name
twice, whatever the matcher lists and the order in which the map is walked,
also when several error matchers are on the same label. -/
theorem groupingLabels_nodup (it : MapIter) (errorMatchers totalMatchers : List Matcher) :
    (groupingLabels it errorMatchers totalMatchers).Nodup ∧
    groupingLabels it
        [Matcher.mk .MatchRegexp "code" "5..", Matcher.mk .MatchNotEqual "code" "503"] [] =
      ["code"] := by
  constructor
  · unfold groupingLabels
    exact (it.perm _).nodup_iff.mpr
      (nodup_foldl_mapDelete _ _ (nodup_foldl_mapStore _ _ List.nodup_nil))
  · show it.keys ["code"] = ["code"]
    exact List.perm_singleton.mp (it.perm _)

/-! ## The cases of replace -/

theorem foldl_matchers_agree (r : objectiveReplacer) (v : List Matcher) (ms : List Matcher)
    (init : List Matcher)
    (hv : ∀ x ∈ ms, x.Name = "matchers" →
      (if x.Value = "errors" then r.errorMatchers else r.matchers) = v)
    (h : init = v ∨ ∃ x ∈ ms, x.Name = "matchers") :
    ms.foldl
      (fun cur m =>
        if m.Name = "matchers" then
          (if m.Value = "errors" then r.errorMatchers else r.matchers)
        else cur)
      init = v := by
  induction ms generalizing init with
  | nil =>
    rcases h with h | ⟨x, hx, _⟩
    · exact h
    · cases hx
  | cons m ms ih =>
    rw [List.foldl_cons]
    apply ih _ (fun x hx => hv x (List.mem_cons_of_mem _ hx))
    by_cases hm : m.Name = "matchers"
    · rw [if_pos hm]
      exact Or.inl (hv m (List.mem_cons_self _ _) hm)
    · rw [if_neg hm]
      rcases h with h | ⟨x, hx, hxn⟩
      · exact Or.inl h
      · rcases List.mem_cons.mp hx with rfl | hx
        · exact absurd hxn hm
        · exact Or.inr ⟨x, hx, hxn⟩

theorem eq_sentinel_iff (v : Float64) :
    Float64.eq v Float64.sentinel = true ↔ v = Float64.sentinel := by
  constructor
  · intro h
    have hs : Float64.sentinel.isZero = false := by decide
    simp only [Float64.eq, hs, Bool.and_false, Bool.or_false, Bool.and_eq_true,
      decide_eq_true_eq] at h
    cases v with
    | mk bits =>
      have hb : bits = Float64.sentinel.bits := h.2
      rw [hb]
  · rintro rfl
    decide

/-- C16. For every record and every instant selector: after `replace` its
name is `r.errorMetric` if it was `errorMetric` and `r.metric` otherwise; its
matcher list is `r.matchers` if it carried at most one matcher; and if it
carried more than one, among them a matcher `m` named `matchers` (with every
other matcher of that name agreeing with `m` on the value), its matcher list
is `r.errorMatchers` when `m`'s value is `errors` and `r.matchers` otherwise.
The parsed placeholder `metric{}` carries one matcher and the tagged
placeholders carry two, so they get the total and the error side as
tagged. -/
theorem replace_VectorSelector (r : objectiveReplacer) (name : String) (ms : List Matcher) :
    (∃ ms', r.replace (.VectorSelector name ms) =
        .ok (.VectorSelector (if name = "errorMetric" then r.errorMetric else r.metric) ms') ∧
      (ms.length ≤ 1 → ms' = r.matchers) ∧
      (∀ m ∈ ms, 1 < ms.length → m.Name = "matchers" →
        (∀ x ∈ ms, x.Name = "matchers" → x.Value = m.Value) →
        ms' = if m.Value = "errors" then r.errorMatchers else r.matchers)) ∧
    r.replace (bareSelector "metric") = .ok (.VectorSelector r.metric r.matchers) ∧
    r.replace (taggedSelector "metric" "total") = .ok (.VectorSelector r.metric r.matchers) ∧
    r.replace (taggedSelector "errorMetric" "errors") =
      .ok (.VectorSelector r.errorMetric r.errorMatchers) := by
  refine ⟨⟨r.replaceMatchers ms, rfl, replaceMatchers_of_short r ms, ?_⟩, rfl, rfl, rfl⟩
  intro m hm h1 hn hu
  unfold objectiveReplacer.replaceMatchers
  rw [if_pos h1]
  apply foldl_matchers_agree r _ ms ms _ (Or.inr ⟨m, hm, hn⟩)
  intro x hx hxn
  rw [hu x hx hxn]

/-- C17. For every record and every aggregation whose inner expression
`replace` turns into `e'`: if the grouping clause is non-empty, the result
carries exactly `r.grouping` in its place (also when that is empty); if it is
empty, it stays empty whatever `r.grouping` is; operator, parameter and
`without` flag are kept and the inner expression is `e'` in both cases. -/
theorem replace_AggregateExpr (r : objectiveReplacer) (op : ItemType) (e e' : Node)
    (param : Option Node) (g : List String) (w : Bool) (he : r.replace e = .ok e') :
    (g ≠ [] →
      r.replace (.AggregateExpr op e param g w) = .ok (.AggregateExpr op e' param r.grouping w)) ∧
    r.replace (.AggregateExpr op e param [] w) = .ok (.AggregateExpr op e' param [] w) := by
  constructor
  · intro hg
    have hlen : g.length > 0 := List.length_pos.mpr hg
    simp only [objectiveReplacer.replace, he, if_pos hlen]
    rfl
  · simp only [objectiveReplacer.replace, he]
    rfl

/-- C17 at the aggregation of the `QueryTotal` template, once with the example
record and once with the same record without grouping. -/
theorem replace_AggregateExpr_witness :
    exampleReplacer.replace (overSecond "increase" (bareSelector "metric")) =
      .ok (overRange "increase" "http_requests_total" [Matcher.mk .MatchEqual "job" "api"]
        fiveMinutes) ∧
    exampleReplacer.replace
        (.AggregateExpr .SUM (overSecond "increase" (bareSelector "metric")) none ["grouping"]
          false) =
      .ok (.AggregateExpr .SUM
        (overRange "increase" "http_requests_total" [Matcher.mk .MatchEqual "job" "api"]
          fiveMinutes)
        none ["handler"] false) ∧
    exampleReplacer.replace
        (.AggregateExpr .SUM (overSecond "increase" (bareSelector "metric")) none [] false) =
      .ok (.AggregateExpr .SUM
        (overRange "increase" "http_requests_total" [Matcher.mk .MatchEqual "job" "api"]
          fiveMinutes)
        none [] false) :=
  have h := replace_AggregateExpr exampleReplacer .SUM
    (overSecond "increase" (bareSelector "metric"))
    (overRange "increase" "http_requests_total" [Matcher.mk .MatchEqual "job" "api"] fiveMinutes)
    none ["grouping"] false rfl
  ⟨rfl, h.1 (by decide), h.2⟩

/-- C18. For every record and every numeric literal: after `replace` its
value is `r.target` if it was `0.696969` (Go's `==` holds exactly for that one
value) and it is unchanged otherwise; so the literals `1` and `0` of the
templates are left as they are. -/
theorem replace_NumberLiteral (r : objectiveReplacer) (v : Float64) :
    r.replace (.NumberLiteral v) =
      .ok (.NumberLiteral (if v = Float64.sentinel then r.target else v)) ∧
    (Float64.eq v Float64.sentinel = true ↔ v = Float64.sentinel) ∧
    r.replace (.NumberLiteral Float64.sentinel) = .ok (.NumberLiteral r.target) ∧
    r.replace (.NumberLiteral Float64.one) = .ok (.NumberLiteral Float64.one) ∧
    r.replace (.NumberLiteral Float64.zero) = .ok (.NumberLiteral Float64.zero) := by
  refine ⟨?_, eq_sentinel_iff v, rfl, rfl, rfl⟩
  simp only [objectiveReplacer.replace]
  by_cases h : v = Float64.sentinel
  · rw [if_pos h, if_pos ((eq_sentinel_iff v).mpr h)]
    rfl
  · have h' : Float64.eq v Float64.sentinel = false := by
      cases hq : Float64.eq v Float64.sentinel
      · rfl
      · exact absurd ((eq_sentinel_iff v).mp hq) h
    rw [if_neg h, h']
    rfl

/-- C19. For every record and every instant selector with more than one
matcher, none of them on the label `matchers`: `replace` rewrites the name
only and leaves the matcher list as it was, so neither `r.matchers` nor
`r.errorMatchers` is swapped in. -/
theorem replace_untagged_selector (r : objectiveReplacer) (name : String) (ms : List Matcher)
    (h1 : 1 < ms.length) (h2 : ∀ m ∈ ms, m.Name ≠ "matchers") :
    r.replace (.VectorSelector name ms) =
      .ok (.VectorSelector (if name = "errorMetric" then r.errorMetric else r.metric) ms) := by
  simp only [objectiveReplacer.replace, replaceMatchers_of_none r ms h1 h2]
  rfl

/-- C19 at the parse of `metric{job="web"}`: the output keeps `job="web"` and
the implicit name matcher, which still holds the placeholder name `metric`. -/
theorem replace_untagged_selector_witness :
    exampleReplacer.replace
        (.VectorSelector "metric"
          [Matcher.mk .MatchEqual "job" "web", Matcher.mk .MatchEqual MetricName "metric"]) =
      .ok (.VectorSelector "http_requests_total"
        [Matcher.mk .MatchEqual "job" "web", Matcher.mk .MatchEqual MetricName "metric"]) :=
  replace_untagged_selector exampleReplacer "metric"
    [Matcher.mk .MatchEqual "job" "web", Matcher.mk .MatchEqual MetricName "metric"]
    (by decide) (by decide)

/-! ## The grouping of a latency objective -/

/-- C20. Two Objectives with only the Latency variant populated that differ
only in the Latency grouping list get identical outputs from
`QueryErrorBudget`, `RequestRange` and `ErrorsRange`, whatever the order the
calls walk their maps in: the configured grouping does not reach these
queries.  `QueryTotal` and `QueryErrors` do apply it: with a non-empty total
metric name their outputs differ as soon as the grouping lists differ. -/
theorem latency_grouping_unused (it it' : MapIter) (target : Float64)
    (window timerange : Duration) (latency : LatencyIndicator) (grouping' : List String) :
    (Objective.mk target window (Indicator.mk none (some latency))).QueryErrorBudget =
      (Objective.mk target window
        (Indicator.mk none (some { latency with Grouping := grouping' }))).QueryErrorBudget ∧
    (Objective.mk target window (Indicator.mk none (some latency))).RequestRange it timerange =
      (Objective.mk target window
        (Indicator.mk none (some { latency with Grouping := grouping' }))).RequestRange it'
        timerange ∧
    (Objective.mk target window (Indicator.mk none (some latency))).ErrorsRange it timerange =
      (Objective.mk target window
        (Indicator.mk none (some { latency with Grouping := grouping' }))).ErrorsRange it'
        timerange ∧
    (latency.Total.Name ≠ "" → latency.Grouping ≠ grouping' →
      (Objective.mk target window (Indicator.mk none (some latency))).QueryTotal timerange ≠
        (Objective.mk target window
          (Indicator.mk none (some { latency with Grouping := grouping' }))).QueryTotal
          timerange ∧
      (Objective.mk target window (Indicator.mk none (some latency))).QueryErrors timerange ≠
        (Objective.mk target window
          (Indicator.mk none (some { latency with Grouping := grouping' }))).QueryErrors
          timerange) := by
  have hr : ∀ l : LatencyIndicator,
      (Objective.mk target window (Indicator.mk none (some l))).ratio = none :=
    fun l => rfl
  by_cases hn : latency.Total.Name = ""
  · have h2 : (Objective.mk target window (Indicator.mk none (some latency))).latency = none := by
      simp [Objective.latency, hn]
    have h2' : (Objective.mk target window
        (Indicator.mk none (some { latency with Grouping := grouping' }))).latency = none := by
      simp [Objective.latency, hn]
    refine ⟨?_, ?_, ?_, fun h => absurd hn h⟩
    · rw [QueryErrorBudget_of_none _ (hr _) h2, QueryErrorBudget_of_none _ (hr _) h2']
    · rw [RequestRange_of_none _ _ _ (hr _) h2, RequestRange_of_none _ _ _ (hr _) h2']
    · rw [ErrorsRange_of_none _ _ _ (hr _) h2, ErrorsRange_of_none _ _ _ (hr _) h2']
  · have h2 : (Objective.mk target window (Indicator.mk none (some latency))).latency =
        some latency := by
      simp [Objective.latency, hn]
    have h2' : (Objective.mk target window
        (Indicator.mk none (some { latency with Grouping := grouping' }))).latency =
        some { latency with Grouping := grouping' } := by
      simp [Objective.latency, hn]
    refine ⟨?_, ?_, ?_, fun _ hg => ⟨?_, ?_⟩⟩
    · rw [QueryErrorBudget_of_latency _ _ (hr _) h2, QueryErrorBudget_of_latency _ _ (hr _) h2']
    · rw [RequestRange_of_latency _ _ _ _ (hr _) h2, RequestRange_of_latency _ _ _ _ (hr _) h2']
    · rw [ErrorsRange_of_latency _ _ _ _ (hr _) h2, ErrorsRange_of_latency _ _ _ _ (hr _) h2']
    · rw [QueryTotal_of_latency _ _ _ h2, QueryTotal_of_latency _ _ _ h2']
      intro h
      simp [sumBy] at h
      exact hg h
    · rw [QueryErrors_of_latency _ _ _ (hr _) h2, QueryErrors_of_latency _ _ _ (hr _) h2']
      intro h
      simp [sumBy] at h
      exact hg h

/-- C20 at the example latency objective, grouped by `handler` against
ungrouped. -/
theorem latency_grouping_unused_witness :
    exampleLatencyObjective.QueryErrorBudget =
      (Objective.mk exampleLatencyObjective.Target fiveMinutes
        (Indicator.mk none (some { exampleLatency with Grouping := [] }))).QueryErrorBudget ∧
    exampleLatencyObjective.QueryTotal fiveMinutes ≠
      (Objective.mk exampleLatencyObjective.Target fiveMinutes
        (Indicator.mk none (some { exampleLatency with Grouping := [] }))).QueryTotal
        fiveMinutes :=
  have h := latency_grouping_unused MapIter.stored MapIter.reversed
    exampleLatencyObjective.Target fiveMinutes fiveMinutes exampleLatency []
  ⟨h.1, (h.2.2.2 (by decide) (by decide)).1⟩

end Slo
